import Mathlib

/-!
Shallow embedding of the Hypixel-BazaarView ingestion-and-aggregation pipeline
(`backend.py`) and its read service (`api.py`).

Modelling conventions:
* timestamps are `Nat` (an abstract monotone clock; `datetime.now()` becomes an
  explicit `now` argument),
* prices (SQL `DECIMAL`) are `ℚ`,
* amounts and order counts are `Nat`,
* the two SQL relations become Lean lists of rows; `INSERT ... ON CONFLICT DO
  NOTHING` and `INSERT ... ON CONFLICT DO UPDATE` are translated to explicit
  key-lookup functions on those lists,
* Python dict access that can raise `KeyError` is translated to `Except String`,
  raw JSON objects with possibly-missing keys carry `Option` fields.
-/

namespace BazaarView

/-- Order-book side, the `side VARCHAR(4)` column (`'BUY'` or `'SELL'`). -/
inductive Side where
  | BUY : Side
  | SELL : Side
deriving DecidableEq, Repr

/-- One row of the `order_book_snapshot` relation (backend.py `setup_database`):
primary key (product_id, timestamp, side, rank), plus price, amount, orders. -/
structure SnapshotRow where
  product_id : String
  timestamp : Nat
  side : Side
  rank : Nat
  price : ℚ
  amount : Nat
  orders : Nat
deriving DecidableEq, Repr

/-- Two snapshot rows collide exactly when they agree on the primary key
(product_id, timestamp, side, rank). -/
def snapKeyEq (a b : SnapshotRow) : Prop :=
  a.product_id = b.product_id ∧ a.timestamp = b.timestamp ∧
    a.side = b.side ∧ a.rank = b.rank

instance (a b : SnapshotRow) : Decidable (snapKeyEq a b) := by
  unfold snapKeyEq; infer_instance

/-- `INSERT ... ON CONFLICT DO NOTHING` for one snapshot row: if a row with the
same primary key already exists the write is a no-op, otherwise the row is
appended (backend.py lines 158-163). -/
def insertSnapshot (store : List SnapshotRow) (r : SnapshotRow) : List SnapshotRow :=
  if store.any (fun s => decide (snapKeyEq s r)) then store else store ++ [r]

/-- `execute_batch` of the insert statement: the rows are inserted one by one. -/
def insertRows (store : List SnapshotRow) (rows : List SnapshotRow) : List SnapshotRow :=
  rows.foldl insertSnapshot store

/-- One row of the `candles` relation: unique key (product_id, timestamp),
OHLC prices and the two volumes.  The SQL `timestamp` column is the candle's
window end. -/
structure Candle where
  product_id : String
  timestamp : Nat
  open_price : ℚ
  high_price : ℚ
  low_price : ℚ
  close_price : ℚ
  buy_volume : Nat
  sell_volume : Nat
deriving DecidableEq, Repr

/-- The persistent state touched by the pipeline: the snapshot relation and the
candle relation. -/
structure DB where
  snaps : List SnapshotRow
  candles : List Candle
deriving DecidableEq, Repr

/-- The `ON CONFLICT (product_id, timestamp)` collision test of the candle
upsert: `x` carries the key of the incoming candle `c`. -/
def candleKeyMatch (c x : Candle) : Prop :=
  x.product_id = c.product_id ∧ x.timestamp = c.timestamp

instance (c x : Candle) : Decidable (candleKeyMatch c x) := by
  unfold candleKeyMatch; infer_instance

/-- `INSERT INTO candles ... ON CONFLICT (product_id, timestamp) DO UPDATE`:
if some row carries the key, every such row has its value columns overwritten
in place; otherwise the new row is appended (backend.py lines 244-257). -/
def upsertCandle (cs : List Candle) (c : Candle) : List Candle :=
  if cs.any (fun x => decide (candleKeyMatch c x)) then
    cs.map (fun x => if candleKeyMatch c x then c else x)
  else cs ++ [c]

/-- The `WHERE product_id = %s AND timestamp >= %s AND side = 'BUY' AND rank = 1`
restriction of the OHLC query (backend.py lines 195-220). -/
def buyTopFilter (snaps : List SnapshotRow) (cutoff : Nat) (pid : String) :
    List SnapshotRow :=
  snaps.filter (fun r =>
    decide (r.product_id = pid ∧ cutoff ≤ r.timestamp ∧ r.side = Side.BUY ∧ r.rank = 1))

/-- The `WHERE product_id = %s AND timestamp >= %s AND side = 'SELL' AND rank = 1`
restriction of the sell-volume query (backend.py lines 229-236). -/
def sellTopFilter (snaps : List SnapshotRow) (cutoff : Nat) (pid : String) :
    List SnapshotRow :=
  snaps.filter (fun r =>
    decide (r.product_id = pid ∧ cutoff ≤ r.timestamp ∧ r.side = Side.SELL ∧ r.rank = 1))

/-- Ordering of snapshot rows by timestamp, the `ORDER BY timestamp ASC` of the
price-sequence CTE. -/
def tsLE (a b : SnapshotRow) : Prop := a.timestamp ≤ b.timestamp

instance : DecidableRel tsLE :=
  fun a b => inferInstanceAs (Decidable (a.timestamp ≤ b.timestamp))

instance : IsTotal SnapshotRow tsLE :=
  ⟨fun a b => Nat.le_total a.timestamp b.timestamp⟩

instance : IsTrans SnapshotRow tsLE :=
  ⟨fun _ _ _ h1 h2 => Nat.le_trans h1 h2⟩

/-- The `price_sequence` CTE: the BUY rank-1 rows of the product inside the
window, ordered by timestamp ascending. -/
def priceSeq (snaps : List SnapshotRow) (cutoff : Nat) (pid : String) :
    List SnapshotRow :=
  List.insertionSort tsLE (buyTopFilter snaps cutoff pid)

/-- The per-product body of `generate_candles` (backend.py lines 193-257): the
OHLC query over the price sequence; `none` models the `result[0] is None`
branch (empty sequence, no candle).  `open`/`close` come from the first/last
row of the ordered sequence, `high`/`low` are the max/min price, `buy_volume`
the sum of amounts, the candle timestamp is the last row's timestamp, and
`sell_volume` is summed independently over the SELL rank-1 rows. -/
def candleOf (snaps : List SnapshotRow) (cutoff : Nat) (pid : String) : Option Candle :=
  match priceSeq snaps cutoff pid with
  | [] => none
  | first :: rest =>
      some { product_id := pid,
             timestamp := ((first :: rest).getLast (List.cons_ne_nil _ _)).timestamp,
             open_price := first.price,
             high_price := (rest.map (fun r => r.price)).foldl max first.price,
             low_price := (rest.map (fun r => r.price)).foldl min first.price,
             close_price := ((first :: rest).getLast (List.cons_ne_nil _ _)).price,
             buy_volume := ((first :: rest).map (fun r => r.amount)).sum,
             sell_volume := ((sellTopFilter snaps cutoff pid).map (fun r => r.amount)).sum }

/-- One iteration of the product loop of `generate_candles`: compute the
candle and upsert it, or skip the product when the BUY sequence is empty. -/
def processProduct (snaps : List SnapshotRow) (cutoff : Nat) (cs : List Candle)
    (pid : String) : List Candle :=
  match candleOf snaps cutoff pid with
  | none => cs
  | some c => upsertCandle cs c

/-- `SELECT DISTINCT product_id FROM order_book_snapshot WHERE timestamp >= %s`
(backend.py lines 184-190). -/
def productsInWindow (snaps : List SnapshotRow) (cutoff : Nat) : List String :=
  ((snaps.filter (fun r => decide (cutoff ≤ r.timestamp))).map
    (fun r => r.product_id)).dedup

/-- `generate_candles` (backend.py lines 170-274) at a given window cutoff
(`now - interval_minutes`): aggregate a candle for every product with data in
the window, then `DELETE FROM order_book_snapshot WHERE timestamp < %s`. -/
def generateCandles (cutoff : Nat) (db : DB) : DB :=
  let candles :=
    (productsInWindow db.snaps cutoff).foldl (processProduct db.snaps cutoff) db.candles
  { snaps := db.snaps.filter (fun r => decide (¬ r.timestamp < cutoff)),
    candles := candles }

/-! ### Fetch / filter / store (backend.py `filter_and_extract_products`,
`store_order_book_snapshot`)

Raw API data is JSON: every key may be missing, modelled with `Option` fields.
Python dict access `d['k']` raises `KeyError` when the key is absent, modelled
by `Except String`; `d.get('k', [])` is `Option.getD`. -/

/-- One raw price level from the upstream JSON
(`{pricePerUnit, amount, orders}`), any field possibly missing. -/
structure RawLevel where
  pricePerUnit : Option ℚ
  amount : Option Nat
  orders : Option Nat
deriving DecidableEq, Repr

/-- One raw product entry: `buy_summary` / `sell_summary` keys, each possibly
missing. -/
structure RawProduct where
  buy_summary : Option (List RawLevel)
  sell_summary : Option (List RawLevel)
deriving DecidableEq, Repr

/-- The raw response body: a `products` key, possibly missing, holding the
product map (a Python dict, modelled as an association list). -/
structure RawData where
  products : Option (List (String × RawProduct))
deriving DecidableEq, Repr

/-- Python subscript `d['k']`: the value, or a `KeyError` if absent. -/
def getKey (name : String) (v : Option α) : Except String α :=
  match v with
  | none => Except.error ("KeyError: " ++ name)
  | some a => Except.ok a

/-- One normalized product produced by the filter: id, the shared capture
timestamp, and the truncated (≤ 5 levels) buy and sell books. -/
structure ProductInfo where
  product_id : String
  timestamp : Nat
  buy_orders : List RawLevel
  sell_orders : List RawLevel
deriving DecidableEq, Repr

/-- The `for product_id, product_data in data['products'].items()` loop of
`filter_and_extract_products` (backend.py lines 94-113): skip products with an
empty or missing side, read both top prices (a missing `pricePerUnit` raises
`KeyError`, aborting the whole batch), drop products whose top price is below
0.7, keep the first 5 levels per side, stamping every product with `now`. -/
def filterLoop (now : Nat) : List (String × RawProduct) → Except String (List ProductInfo)
  | [] => Except.ok []
  | (pid, pd) :: rest =>
      let buySummary := pd.buy_summary.getD []
      let sellSummary := pd.sell_summary.getD []
      match buySummary, sellSummary with
      | [], _ => filterLoop now rest
      | _ :: _, [] => filterLoop now rest
      | b0 :: _, s0 :: _ => do
          let topBuyPrice ← getKey "pricePerUnit" b0.pricePerUnit
          let topSellPrice ← getKey "pricePerUnit" s0.pricePerUnit
          if topBuyPrice < 7/10 ∨ topSellPrice < 7/10 then
            filterLoop now rest
          else do
            let out ← filterLoop now rest
            Except.ok ({ product_id := pid, timestamp := now,
                         buy_orders := buySummary.take 5,
                         sell_orders := sellSummary.take 5 } :: out)

/-- `filter_and_extract_products` (backend.py lines 86-116): `None` data or a
missing `products` key yield the empty batch; otherwise the product loop runs
with one shared capture timestamp `now` (`datetime.now()`). -/
def filterAndExtractProducts (data : Option RawData) (now : Nat) :
    Except String (List ProductInfo) :=
  match data with
  | none => Except.ok []
  | some d =>
      match d.products with
      | none => Except.ok []
      | some prods => filterLoop now prods

/-- The row-building inner loop of `store_order_book_snapshot`
(backend.py lines 136-156) for one side: `enumerate(orders, start=rank)`,
each level's fields read with (possibly failing) dict access. -/
def rowsOfSide (pid : String) (ts : Nat) (side : Side) :
    Nat → List RawLevel → Except String (List SnapshotRow)
  | _, [] => Except.ok []
  | rank, l :: rest => do
      let price ← getKey "pricePerUnit" l.pricePerUnit
      let amount ← getKey "amount" l.amount
      let orders ← getKey "orders" l.orders
      let tail ← rowsOfSide pid ts side (rank + 1) rest
      Except.ok ({ product_id := pid, timestamp := ts, side := side, rank := rank,
                   price := price, amount := amount, orders := orders } :: tail)

/-- All snapshot rows of one normalized product: BUY levels then SELL levels,
ranks starting at 1. -/
def rowsOfProduct (p : ProductInfo) : Except String (List SnapshotRow) := do
  let buys ← rowsOfSide p.product_id p.timestamp Side.BUY 1 p.buy_orders
  let sells ← rowsOfSide p.product_id p.timestamp Side.SELL 1 p.sell_orders
  Except.ok (buys ++ sells)

/-- The full row list built by `store_order_book_snapshot` before any insert
(backend.py lines 131-156); a `KeyError` on any level fails the whole batch
before anything is written. -/
def rowsOfProducts : List ProductInfo → Except String (List SnapshotRow)
  | [] => Except.ok []
  | p :: ps => do
      let rows ← rowsOfProduct p
      let rest ← rowsOfProducts ps
      Except.ok (rows ++ rest)

/-- `store_order_book_snapshot` (backend.py lines 118-168): an empty batch
leaves the store untouched; otherwise all rows are built and inserted with
`ON CONFLICT DO NOTHING`. -/
def storeOrderBookSnapshot (products : List ProductInfo) (store : List SnapshotRow) :
    Except String (List SnapshotRow) :=
  match products with
  | [] => Except.ok store
  | _ :: _ => do
      let rows ← rowsOfProducts products
      Except.ok (insertRows store rows)

/-! ### Read service (api.py)

The store connection may fail (`psycopg2.connect` raising), modelled by the
endpoints receiving an `Option DB`: `none` is an unreachable store.  Each
endpoint's `try/except` converts any raised error into the defaulted JSON
payload that the code returns from its `except` branch. -/

/-- `get_db()` / `conn = get_db()`: connecting to an unreachable store
raises. -/
def connectDB (db : Option DB) : Except String DB :=
  match db with
  | none => Except.error "connection failed"
  | some d => Except.ok d

/-- Response of `/api/products`: always a JSON list of product ids. -/
def getProducts (db : Option DB) : List String :=
  match connectDB db with
  | Except.error _ => []
  | Except.ok d =>
      ((d.candles.map (fun c => c.product_id)).dedup).insertionSort (· ≤ ·)

/-- One serialized candle of the `/api/candles` payload. -/
structure CandleOut where
  timestamp : Nat
  open_price : ℚ
  high_price : ℚ
  low_price : ℚ
  close_price : ℚ
  buy_volume : Nat
  sell_volume : Nat
deriving DecidableEq, Repr

/-- Response of `/api/candles`: either HTTP 400 (missing product parameter) or
a JSON payload with an optional error message and a candle list. -/
inductive CandlesResp where
  | badRequest : Nat → String → CandlesResp
  | payload : Option String → List CandleOut → CandlesResp
deriving DecidableEq, Repr

/-- Decimal digit value of a character, if it is a digit. -/
def digitVal? (c : Char) : Option Nat :=
  if 48 ≤ c.toNat ∧ c.toNat ≤ 57 then some (c.toNat - 48) else none

/-- Decimal reading of a nonempty all-digit character list. -/
def natOfChars : List Char → Option Nat
  | [] => none
  | cs => go cs 0
where
  go : List Char → Nat → Option Nat
    | [], acc => some acc
    | c :: cs, acc =>
        match digitVal? c with
        | none => none
        | some d => go cs (acc * 10 + d)

/-- The core of Python `int(str)`: an optional minus sign followed by at least
one decimal digit; anything else fails. -/
def intOfString (s : String) : Option Int :=
  match s.data with
  | [] => none
  | '-' :: cs => (natOfChars cs).map (fun n => -(n : Int))
  | cs => natOfChars cs

/-- `int(request.args.get('hours', 1))` (api.py line 41): an absent parameter
defaults to 1, a present one is parsed by `int()`, which raises `ValueError`
on a malformed string. -/
def parseHours (raw : Option String) : Except String Int :=
  match raw with
  | none => Except.ok 1
  | some s =>
      match intOfString s with
      | none => Except.error ("invalid literal for int() with base 10: " ++ s)
      | some n => Except.ok n

/-- The candle rows matching `/api/candles`' query: product and trailing
window (`datetime.now() - timedelta(hours=hours)`, an integer instant since
`hours` may be negative), ordered by timestamp ascending. -/
def candleQuery (d : DB) (product : String) (cutoff : Int) : List Candle :=
  List.insertionSort (fun a b => a.timestamp ≤ b.timestamp)
    (d.candles.filter (fun c =>
      decide (c.product_id = product ∧ cutoff ≤ (c.timestamp : Int))))

/-- `get_candles` (api.py lines 36-82): the `hours` parameter is parsed before
the `product` check, and a parse failure is caught by the blanket `except`,
returning the error payload with an empty candle list; with `hours` parsed,
a missing `product` yields HTTP 400 before any store access; a store failure
is caught and returns an error message with an empty candle list, as does an
empty query result. -/
def getCandles (product : Option String) (hoursRaw : Option String) (now : Nat)
    (db : Option DB) : CandlesResp :=
  match parseHours hoursRaw with
  | Except.error e => CandlesResp.payload (some e) []
  | Except.ok hours =>
      match product with
      | none => CandlesResp.badRequest 400 "Product parameter required"
      | some pid =>
          match connectDB db with
          | Except.error e => CandlesResp.payload (some e) []
          | Except.ok d =>
              let cutoff := (now : Int) - 3600 * hours
              match candleQuery d pid cutoff with
              | [] => CandlesResp.payload (some "No data available for this product") []
              | rows@(_ :: _) =>
                  CandlesResp.payload none
                    (rows.map (fun c =>
                      { timestamp := c.timestamp, open_price := c.open_price,
                        high_price := c.high_price, low_price := c.low_price,
                        close_price := c.close_price, buy_volume := c.buy_volume,
                        sell_volume := c.sell_volume }))

/-- One serialized order-book level of the `/api/orderbook` payload. -/
structure LevelOut where
  price : ℚ
  amount : Nat
  orders : Nat
deriving DecidableEq, Repr

/-- Response of `/api/orderbook`: either HTTP 400 (missing product parameter)
or a JSON payload with an optional error message and the two books. -/
inductive OrderbookResp where
  | badRequest : Nat → String → OrderbookResp
  | payload : Option String → List LevelOut → List LevelOut → OrderbookResp
deriving DecidableEq, Repr

/-- `SELECT MAX(timestamp) FROM order_book_snapshot WHERE product_id = %s`. -/
def latestTime (d : DB) (product : String) : Option Nat :=
  ((d.snaps.filter (fun r => decide (r.product_id = product))).map
    (fun r => r.timestamp)).max?

/-- The top-5 query of one side of `/api/orderbook`: rows of the product at
the latest timestamp on that side, ordered by rank ascending, first 5. -/
def sideQuery (d : DB) (product : String) (t : Nat) (side : Side) : List LevelOut :=
  ((List.insertionSort (fun a b => a.rank ≤ b.rank)
      (d.snaps.filter (fun r =>
        decide (r.product_id = product ∧ r.timestamp = t ∧ r.side = side)))).take 5).map
    (fun r => { price := r.price, amount := r.amount, orders := r.orders })

/-- `get_orderbook` (api.py lines 84-158): missing `product` yields HTTP 400
before any store access; a store failure is caught and returns an error with
two empty books; a product with no snapshot rows returns two empty books. -/
def getOrderbook (product : Option String) (db : Option DB) : OrderbookResp :=
  match product with
  | none => OrderbookResp.badRequest 400 "Product parameter required"
  | some pid =>
      match connectDB db with
      | Except.error e => OrderbookResp.payload (some e) [] []
      | Except.ok d =>
          match latestTime d pid with
          | none => OrderbookResp.payload none [] []
          | some t =>
              OrderbookResp.payload none (sideQuery d pid t Side.BUY)
                (sideQuery d pid t Side.SELL)

/-- The state of the candle relation at the key of candle `c` after a
successful upsert of `c`: some row carries the key and every row carrying it
is exactly `c`. -/
def keyHolds (c : Candle) (cs : List Candle) : Prop :=
  (∃ x ∈ cs, candleKeyMatch c x) ∧ ∀ x ∈ cs, candleKeyMatch c x → x = c

/-! ### Helper lemmas: folded max/min over the price list -/

theorem foldl_max_init_le : ∀ (l : List ℚ) (init : ℚ), init ≤ l.foldl max init
  | [], _ => le_refl _
  | a :: l, init =>
      le_trans (le_max_left init a) (foldl_max_init_le l (max init a))

theorem foldl_max_le_of_mem : ∀ (l : List ℚ) (init x : ℚ), x ∈ l → x ≤ l.foldl max init
  | a :: l, init, x, hx => by
      rcases List.mem_cons.mp hx with rfl | hx2
      · exact le_trans (le_max_right init x) (foldl_max_init_le l (max init x))
      · exact foldl_max_le_of_mem l (max init a) x hx2

theorem foldl_max_mem : ∀ (l : List ℚ) (init : ℚ),
    l.foldl max init = init ∨ l.foldl max init ∈ l
  | [], _ => Or.inl rfl
  | a :: l, init => by
      rcases foldl_max_mem l (max init a) with h | h
      · rcases max_choice init a with hc | hc
        · exact Or.inl (by rw [List.foldl_cons, h, hc])
        · exact Or.inr (by rw [List.foldl_cons, h, hc]; exact List.mem_cons_self a l)
      · exact Or.inr (List.mem_cons_of_mem a h)

theorem foldl_min_le_init : ∀ (l : List ℚ) (init : ℚ), l.foldl min init ≤ init
  | [], _ => le_refl _
  | a :: l, init =>
      le_trans (foldl_min_le_init l (min init a)) (min_le_left init a)

theorem foldl_min_le_of_mem : ∀ (l : List ℚ) (init x : ℚ), x ∈ l → l.foldl min init ≤ x
  | a :: l, init, x, hx => by
      rcases List.mem_cons.mp hx with rfl | hx2
      · exact le_trans (foldl_min_le_init l (min init x)) (min_le_right init x)
      · exact foldl_min_le_of_mem l (min init a) x hx2

theorem foldl_min_mem : ∀ (l : List ℚ) (init : ℚ),
    l.foldl min init = init ∨ l.foldl min init ∈ l
  | [], _ => Or.inl rfl
  | a :: l, init => by
      rcases foldl_min_mem l (min init a) with h | h
      · rcases min_choice init a with hc | hc
        · exact Or.inl (by rw [List.foldl_cons, h, hc])
        · exact Or.inr (by rw [List.foldl_cons, h, hc]; exact List.mem_cons_self a l)
      · exact Or.inr (List.mem_cons_of_mem a h)

/-! ### Helper lemmas: the sorted price sequence -/

theorem sorted_tsLE_head_le {first : SnapshotRow} {rest : List SnapshotRow}
    (h : List.Sorted tsLE (first :: rest)) :
    ∀ x ∈ first :: rest, first.timestamp ≤ x.timestamp := by
  intro x hx
  rcases List.mem_cons.mp hx with rfl | hx2
  · exact Nat.le_refl _
  · exact List.rel_of_sorted_cons h x hx2

theorem sorted_tsLE_le_getLast :
    ∀ (l : List SnapshotRow), List.Sorted tsLE l → ∀ (hne : l ≠ []),
      ∀ x ∈ l, x.timestamp ≤ (l.getLast hne).timestamp
  | [a], _, _, x, hx => by
      rcases List.mem_cons.mp hx with rfl | hx2
      · exact Nat.le_refl _
      · exact absurd hx2 (List.not_mem_nil x)
  | a :: b :: t, h, hne, x, hx => by
      have hbt : (b :: t) ≠ [] := List.cons_ne_nil _ _
      rw [List.getLast_cons hbt]
      rcases List.mem_cons.mp hx with rfl | hx2
      · exact List.rel_of_sorted_cons h _ (List.getLast_mem hbt)
      · exact sorted_tsLE_le_getLast (b :: t) h.of_cons hbt x hx2

theorem priceSeq_perm (snaps : List SnapshotRow) (cutoff : Nat) (pid : String) :
    List.Perm (priceSeq snaps cutoff pid) (buyTopFilter snaps cutoff pid) :=
  List.perm_insertionSort tsLE _

theorem priceSeq_sorted (snaps : List SnapshotRow) (cutoff : Nat) (pid : String) :
    List.Sorted tsLE (priceSeq snaps cutoff pid) :=
  List.sorted_insertionSort tsLE _

theorem priceSeq_eq_nil_of (snaps : List SnapshotRow) (cutoff : Nat) (pid : String)
    (h : buyTopFilter snaps cutoff pid = []) : priceSeq snaps cutoff pid = [] := by
  unfold priceSeq
  rw [h]
  rfl

theorem buyTopFilter_eq_nil_of (snaps : List SnapshotRow) (cutoff : Nat) (pid : String)
    (h : priceSeq snaps cutoff pid = []) : buyTopFilter snaps cutoff pid = [] := by
  have hp := priceSeq_perm snaps cutoff pid
  rw [h] at hp
  exact hp.symm.eq_nil

/-! ### Helper lemmas: the computed candle against the snapshot set -/

theorem candleOf_product_id {snaps : List SnapshotRow} {cutoff : Nat} {pid : String}
    {c : Candle} (h : candleOf snaps cutoff pid = some c) : c.product_id = pid := by
  unfold candleOf at h
  rcases hs : priceSeq snaps cutoff pid with _ | ⟨first, rest⟩ <;> rw [hs] at h
  · exact absurd h (by simp)
  · simp only [Option.some.injEq] at h
    rw [← h]

theorem candleOf_eq_none {snaps : List SnapshotRow} {cutoff : Nat} {pid : String}
    (h : buyTopFilter snaps cutoff pid = []) : candleOf snaps cutoff pid = none := by
  unfold candleOf
  rw [priceSeq_eq_nil_of snaps cutoff pid h]

theorem candleOf_spec (snaps : List SnapshotRow) (cutoff : Nat) (pid : String)
    (hne : buyTopFilter snaps cutoff pid ≠ []) :
    ∃ c, candleOf snaps cutoff pid = some c ∧
      c.product_id = pid ∧
      (∃ f ∈ buyTopFilter snaps cutoff pid,
        (∀ r ∈ buyTopFilter snaps cutoff pid, f.timestamp ≤ r.timestamp) ∧
        c.open_price = f.price) ∧
      (∃ lst ∈ buyTopFilter snaps cutoff pid,
        (∀ r ∈ buyTopFilter snaps cutoff pid, r.timestamp ≤ lst.timestamp) ∧
        c.close_price = lst.price ∧ c.timestamp = lst.timestamp) ∧
      (∀ r ∈ buyTopFilter snaps cutoff pid, r.price ≤ c.high_price) ∧
      (∃ r ∈ buyTopFilter snaps cutoff pid, c.high_price = r.price) ∧
      (∀ r ∈ buyTopFilter snaps cutoff pid, c.low_price ≤ r.price) ∧
      (∃ r ∈ buyTopFilter snaps cutoff pid, c.low_price = r.price) ∧
      c.buy_volume = ((buyTopFilter snaps cutoff pid).map (fun r => r.amount)).sum ∧
      c.sell_volume = ((sellTopFilter snaps cutoff pid).map (fun r => r.amount)).sum := by
  rcases hs : priceSeq snaps cutoff pid with _ | ⟨first, rest⟩
  · exact absurd (buyTopFilter_eq_nil_of snaps cutoff pid hs) hne
  have hperm : List.Perm (first :: rest) (buyTopFilter snaps cutoff pid) := by
    rw [← hs]; exact priceSeq_perm snaps cutoff pid
  have hsorted : List.Sorted tsLE (first :: rest) := by
    rw [← hs]; exact priceSeq_sorted snaps cutoff pid
  have hmemS : ∀ x ∈ (first :: rest), x ∈ buyTopFilter snaps cutoff pid :=
    fun x hx => hperm.mem_iff.mp hx
  have hmemseq : ∀ x ∈ buyTopFilter snaps cutoff pid, x ∈ (first :: rest) :=
    fun x hx => hperm.mem_iff.mpr hx
  refine ⟨_, by unfold candleOf; rw [hs], rfl, ?_, ?_, ?_, ?_, ?_, ?_, ?_, rfl⟩
  · -- open = price of the earliest snapshot
    exact ⟨first, hmemS first (List.mem_cons_self _ _),
      fun r hr => sorted_tsLE_head_le hsorted r (hmemseq r hr), rfl⟩
  · -- close / window_end = price and timestamp of the latest snapshot
    refine ⟨(first :: rest).getLast (List.cons_ne_nil _ _),
      hmemS _ (List.getLast_mem _), fun r hr => ?_, rfl, rfl⟩
    exact sorted_tsLE_le_getLast (first :: rest) hsorted _ r (hmemseq r hr)
  · -- high is an upper bound
    intro r hr
    rcases List.mem_cons.mp (hmemseq r hr) with rfl | hr2
    · exact foldl_max_init_le _ _
    · exact foldl_max_le_of_mem _ _ _ (List.mem_map_of_mem (fun x => x.price) hr2)
  · -- high is attained
    rcases foldl_max_mem (rest.map (fun r => r.price)) first.price with h | h
    · exact ⟨first, hmemS first (List.mem_cons_self _ _), h⟩
    · rcases List.mem_map.mp h with ⟨r, hr, hrp⟩
      exact ⟨r, hmemS r (List.mem_cons_of_mem _ hr), hrp.symm⟩
  · -- low is a lower bound
    intro r hr
    rcases List.mem_cons.mp (hmemseq r hr) with rfl | hr2
    · exact foldl_min_le_init _ _
    · exact foldl_min_le_of_mem _ _ _ (List.mem_map_of_mem (fun x => x.price) hr2)
  · -- low is attained
    rcases foldl_min_mem (rest.map (fun r => r.price)) first.price with h | h
    · exact ⟨first, hmemS first (List.mem_cons_self _ _), h⟩
    · rcases List.mem_map.mp h with ⟨r, hr, hrp⟩
      exact ⟨r, hmemS r (List.mem_cons_of_mem _ hr), hrp.symm⟩
  · -- buy volume is the sum of the amounts
    exact List.Perm.sum_eq (hperm.map (fun r => r.amount))

/-! ### Helper lemmas: the candle upsert and the product fold -/

theorem candleKeyMatch_self (c : Candle) : candleKeyMatch c c := ⟨rfl, rfl⟩

theorem keyHolds_upsert_self (cs : List Candle) (c : Candle) :
    keyHolds c (upsertCandle cs c) := by
  unfold upsertCandle
  by_cases hany : cs.any (fun x => decide (candleKeyMatch c x)) = true
  · rw [if_pos hany]
    constructor
    · rcases List.any_eq_true.mp hany with ⟨x0, hx0, hm⟩
      have hmx0 : candleKeyMatch c x0 := of_decide_eq_true hm
      refine ⟨(fun x => if candleKeyMatch c x then c else x) x0,
        List.mem_map_of_mem _ hx0, ?_⟩
      simp only [if_pos hmx0]
      exact candleKeyMatch_self c
    · intro y hy hm
      rcases List.mem_map.mp hy with ⟨x, hx, hfx⟩
      by_cases hmx : candleKeyMatch c x
      · rw [if_pos hmx] at hfx; exact hfx.symm
      · rw [if_neg hmx] at hfx; exact absurd (hfx ▸ hm) hmx
  · rw [if_neg hany]
    constructor
    · exact ⟨c, List.mem_append_right cs (List.mem_singleton_self c), candleKeyMatch_self c⟩
    · intro y hy hm
      rcases List.mem_append.mp hy with hy1 | hy2
      · exact absurd (List.any_eq_true.mpr ⟨y, hy1, decide_eq_true hm⟩) hany
      · exact List.mem_singleton.mp hy2

theorem keyHolds_upsert_other {c c' : Candle} {cs : List Candle}
    (hpid : c'.product_id ≠ c.product_id) (h : keyHolds c cs) :
    keyHolds c (upsertCandle cs c') := by
  have hnomatch : ∀ x : Candle, candleKeyMatch c x → ¬ candleKeyMatch c' x := by
    intro x hx hx'
    exact hpid (hx'.1.symm.trans hx.1)
  unfold upsertCandle
  by_cases hany : cs.any (fun x => decide (candleKeyMatch c' x)) = true
  · rw [if_pos hany]
    rcases h with ⟨⟨x0, hx0, hm0⟩, hall⟩
    constructor
    · refine ⟨x0, ?_, hm0⟩
      have : (if candleKeyMatch c' x0 then c' else x0) = x0 := if_neg (hnomatch x0 hm0)
      exact this ▸ List.mem_map_of_mem (fun x => if candleKeyMatch c' x then c' else x) hx0
    · intro y hy hm
      rcases List.mem_map.mp hy with ⟨x, hx, hfx⟩
      by_cases hmx : candleKeyMatch c' x
      · rw [if_pos hmx] at hfx
        exact absurd (hfx ▸ hm) (fun hcc' => hpid hcc'.1)
      · rw [if_neg hmx] at hfx
        exact hall y (hfx ▸ hx) hm
  · rw [if_neg hany]
    rcases h with ⟨⟨x0, hx0, hm0⟩, hall⟩
    constructor
    · exact ⟨x0, List.mem_append_left _ hx0, hm0⟩
    · intro y hy hm
      rcases List.mem_append.mp hy with hy1 | hy2
      · exact hall y hy1 hm
      · have : y = c' := List.mem_singleton.mp hy2
        exact absurd (this ▸ hm) (fun hcc' => hpid hcc'.1)

theorem upsert_keyHolds_noop {c : Candle} {cs : List Candle} (h : keyHolds c cs) :
    upsertCandle cs c = cs := by
  rcases h with ⟨⟨x0, hx0, hm0⟩, hall⟩
  unfold upsertCandle
  rw [if_pos (List.any_eq_true.mpr ⟨x0, hx0, decide_eq_true hm0⟩)]
  have : ∀ x ∈ cs, (if candleKeyMatch c x then c else x) = x := by
    intro x hx
    by_cases hmx : candleKeyMatch c x
    · rw [if_pos hmx, hall x hx hmx]
    · rw [if_neg hmx]
  rw [List.map_congr_left this]
  exact List.map_id' cs

theorem filter_map_invariant {p : Candle → Bool} {f : Candle → Candle} :
    ∀ {cs : List Candle}, (∀ x ∈ cs, f x = x ∨ (p x = false ∧ p (f x) = false)) →
      (cs.map f).filter p = cs.filter p
  | [], _ => rfl
  | a :: cs, h => by
      have htail : (cs.map f).filter p = cs.filter p :=
        filter_map_invariant (fun x hx => h x (List.mem_cons_of_mem a hx))
      rcases h a (List.mem_cons_self a cs) with ha | ⟨ha1, ha2⟩
      · rw [List.map_cons, ha, List.filter_cons, List.filter_cons, htail]
      · simp [ha1, ha2, htail]

theorem filter_upsert_other {c' : Candle} {cs : List Candle} {pid : String}
    (hpid : c'.product_id ≠ pid) :
    (upsertCandle cs c').filter (fun x => decide (x.product_id = pid)) =
      cs.filter (fun x => decide (x.product_id = pid)) := by
  unfold upsertCandle
  by_cases hany : cs.any (fun x => decide (candleKeyMatch c' x)) = true
  · rw [if_pos hany]
    apply filter_map_invariant
    intro x _
    by_cases hmx : candleKeyMatch c' x
    · refine Or.inr ⟨decide_eq_false ?_, ?_⟩
      · rw [hmx.1]; exact hpid
      · rw [if_pos hmx]; exact decide_eq_false hpid
    · exact Or.inl (if_neg hmx)
  · rw [if_neg hany, List.filter_append]
    have : List.filter (fun x => decide (x.product_id = pid)) [c'] = [] := by
      simp [hpid]
    rw [this, List.append_nil]

theorem filter_processProduct_other {snaps : List SnapshotRow} {cutoff : Nat}
    {pid q : String} {cs : List Candle} (hq : q ≠ pid) :
    (processProduct snaps cutoff cs q).filter (fun x => decide (x.product_id = pid)) =
      cs.filter (fun x => decide (x.product_id = pid)) := by
  unfold processProduct
  rcases hc : candleOf snaps cutoff q with _ | c
  · rfl
  · exact filter_upsert_other (by rw [candleOf_product_id hc]; exact hq)

theorem foldl_filter_not_mem {snaps : List SnapshotRow} {cutoff : Nat} {pid : String} :
    ∀ (l : List String) (cs : List Candle), pid ∉ l →
      (l.foldl (processProduct snaps cutoff) cs).filter
          (fun x => decide (x.product_id = pid)) =
        cs.filter (fun x => decide (x.product_id = pid))
  | [], _, _ => rfl
  | q :: t, cs, h => by
      have hq : q ≠ pid := fun hqe => h (hqe ▸ List.mem_cons_self q t)
      have ht : pid ∉ t := fun hmem => h (List.mem_cons_of_mem q hmem)
      rw [List.foldl_cons, foldl_filter_not_mem t _ ht, filter_processProduct_other hq]

theorem foldl_filter_none {snaps : List SnapshotRow} {cutoff : Nat} {pid : String}
    (hnone : candleOf snaps cutoff pid = none) :
    ∀ (l : List String) (cs : List Candle),
      (l.foldl (processProduct snaps cutoff) cs).filter
          (fun x => decide (x.product_id = pid)) =
        cs.filter (fun x => decide (x.product_id = pid))
  | [], _ => rfl
  | q :: t, cs => by
      rw [List.foldl_cons, foldl_filter_none hnone t _]
      by_cases hq : q = pid
      · subst hq
        unfold processProduct
        rw [hnone]
      · rw [filter_processProduct_other hq]

theorem foldl_filter_unique {snaps : List SnapshotRow} {cutoff : Nat} {pid : String}
    {c : Candle} (hc : candleOf snaps cutoff pid = some c) :
    ∀ (l : List String) (cs : List Candle), l.Nodup → pid ∈ l →
      cs.filter (fun x => decide (x.product_id = pid)) = [] →
      (l.foldl (processProduct snaps cutoff) cs).filter
          (fun x => decide (x.product_id = pid)) = [c]
  | q :: t, cs, hnd, hmem, hcs => by
      have hqt := List.nodup_cons.mp hnd
      rw [List.foldl_cons]
      by_cases hq : q = pid
      · subst hq
        have hup : processProduct snaps cutoff cs q = upsertCandle cs c := by
          unfold processProduct
          rw [hc]
        have hstep : processProduct snaps cutoff cs q = cs ++ [c] := by
          rw [hup]
          unfold upsertCandle
          rw [if_neg ?_]
          intro hany
          rcases List.any_eq_true.mp hany with ⟨x, hx, hm⟩
          have hxp : x.product_id = q :=
            (of_decide_eq_true hm).1.trans (candleOf_product_id hc)
          have : x ∈ cs.filter (fun x => decide (x.product_id = q)) :=
            List.mem_filter.mpr ⟨hx, decide_eq_true hxp⟩
          rw [hcs] at this
          exact absurd this (List.not_mem_nil x)
        rw [hstep, foldl_filter_not_mem t _ hqt.1, List.filter_append, hcs,
          List.nil_append]
        simp [candleOf_product_id hc]
      · have hmem2 : pid ∈ t := by
          rcases List.mem_cons.mp hmem with h1 | h2
          · exact absurd h1.symm hq
          · exact h2
        have hcs2 : (processProduct snaps cutoff cs q).filter
            (fun x => decide (x.product_id = pid)) = [] := by
          rw [filter_processProduct_other hq, hcs]
        exact foldl_filter_unique hc t _ hqt.2 hmem2 hcs2

theorem keyHolds_foldl_not_mem {snaps : List SnapshotRow} {cutoff : Nat} {c : Candle} :
    ∀ (l : List String) (cs : List Candle), c.product_id ∉ l → keyHolds c cs →
      keyHolds c (l.foldl (processProduct snaps cutoff) cs)
  | [], _, _, h => h
  | q :: t, cs, hnm, h => by
      have hq : q ≠ c.product_id := fun hqe => hnm (hqe ▸ List.mem_cons_self q t)
      have ht : c.product_id ∉ t := fun hmem => hnm (List.mem_cons_of_mem q hmem)
      rw [List.foldl_cons]
      refine keyHolds_foldl_not_mem t _ ht ?_
      unfold processProduct
      rcases hcq : candleOf snaps cutoff q with _ | c'
      · exact h
      · exact keyHolds_upsert_other (by rw [candleOf_product_id hcq]; exact hq) h

theorem keyHolds_foldl {snaps : List SnapshotRow} {cutoff : Nat} :
    ∀ (l : List String) (cs : List Candle) (q : String) (c : Candle), l.Nodup →
      q ∈ l → candleOf snaps cutoff q = some c →
      keyHolds c (l.foldl (processProduct snaps cutoff) cs)
  | q0 :: t, cs, q, c, hnd, hmem, hc => by
      have hqt := List.nodup_cons.mp hnd
      rw [List.foldl_cons]
      by_cases hq : q0 = q
      · subst hq
        have hstep : processProduct snaps cutoff cs q0 = upsertCandle cs c := by
          unfold processProduct
          rw [hc]
        rw [hstep]
        have hpid : c.product_id ∉ t := by
          rw [candleOf_product_id hc]
          exact hqt.1
        exact keyHolds_foldl_not_mem t _ hpid (keyHolds_upsert_self cs c)
      · have hmem2 : q ∈ t := by
          rcases List.mem_cons.mp hmem with h1 | h2
          · exact absurd h1.symm hq
          · exact h2
        exact keyHolds_foldl t _ q c hqt.2 hmem2 hc

theorem foldl_process_noop {snaps : List SnapshotRow} {cutoff : Nat} :
    ∀ (l : List String) (cs : List Candle),
      (∀ q ∈ l, ∀ c, candleOf snaps cutoff q = some c → keyHolds c cs) →
      l.foldl (processProduct snaps cutoff) cs = cs
  | [], _, _ => rfl
  | q :: t, cs, h => by
      rw [List.foldl_cons]
      have hstep : processProduct snaps cutoff cs q = cs := by
        unfold processProduct
        rcases hcq : candleOf snaps cutoff q with _ | c
        · rfl
        · exact upsert_keyHolds_noop (h q (List.mem_cons_self q t) c hcq)
      rw [hstep]
      exact foldl_process_noop t cs (fun q' hq' => h q' (List.mem_cons_of_mem q hq'))

/-! ### Helper lemmas: the retention sweep does not change what the
aggregation queries see -/

theorem buyTopFilter_sweep (snaps : List SnapshotRow) (cutoff : Nat) (pid : String) :
    buyTopFilter (snaps.filter (fun r => decide (¬ r.timestamp < cutoff))) cutoff pid =
      buyTopFilter snaps cutoff pid := by
  unfold buyTopFilter
  rw [List.filter_filter]
  apply List.filter_congr
  intro x _
  by_cases h : (x.product_id = pid ∧ cutoff ≤ x.timestamp ∧ x.side = Side.BUY ∧ x.rank = 1)
  · simp [h, Nat.not_lt.mpr h.2.1]
  · simp [h]

theorem sellTopFilter_sweep (snaps : List SnapshotRow) (cutoff : Nat) (pid : String) :
    sellTopFilter (snaps.filter (fun r => decide (¬ r.timestamp < cutoff))) cutoff pid =
      sellTopFilter snaps cutoff pid := by
  unfold sellTopFilter
  rw [List.filter_filter]
  apply List.filter_congr
  intro x _
  by_cases h : (x.product_id = pid ∧ cutoff ≤ x.timestamp ∧ x.side = Side.SELL ∧ x.rank = 1)
  · simp [h, Nat.not_lt.mpr h.2.1]
  · simp [h]

theorem productsInWindow_sweep (snaps : List SnapshotRow) (cutoff : Nat) :
    productsInWindow (snaps.filter (fun r => decide (¬ r.timestamp < cutoff))) cutoff =
      productsInWindow snaps cutoff := by
  unfold productsInWindow
  rw [List.filter_filter]
  congr 1
  apply congrArg
  apply List.filter_congr
  intro x _
  by_cases h : cutoff ≤ x.timestamp
  · simp [h, Nat.not_lt.mpr h]
  · simp [h]

theorem sweep_idem (snaps : List SnapshotRow) (cutoff : Nat) :
    (snaps.filter (fun r => decide (¬ r.timestamp < cutoff))).filter
        (fun r => decide (¬ r.timestamp < cutoff)) =
      snaps.filter (fun r => decide (¬ r.timestamp < cutoff)) := by
  rw [List.filter_filter]
  apply List.filter_congr
  intro x _
  by_cases h : x.timestamp < cutoff
  · simp [h]
  · simp [h]

theorem candleOf_sweep (snaps : List SnapshotRow) (cutoff : Nat) (pid : String) :
    candleOf (snaps.filter (fun r => decide (¬ r.timestamp < cutoff))) cutoff pid =
      candleOf snaps cutoff pid := by
  unfold candleOf priceSeq
  rw [buyTopFilter_sweep, sellTopFilter_sweep]

theorem processProduct_sweep (snaps : List SnapshotRow) (cutoff : Nat) :
    processProduct (snaps.filter (fun r => decide (¬ r.timestamp < cutoff))) cutoff =
      processProduct snaps cutoff := by
  funext cs pid
  unfold processProduct
  rw [candleOf_sweep]

theorem mem_productsInWindow {snaps : List SnapshotRow} {cutoff : Nat} {pid : String} :
    pid ∈ productsInWindow snaps cutoff ↔
      ∃ r ∈ snaps, r.product_id = pid ∧ cutoff ≤ r.timestamp := by
  unfold productsInWindow
  rw [List.mem_dedup]
  constructor
  · intro h
    rcases List.mem_map.mp h with ⟨r, hr, hrp⟩
    rcases List.mem_filter.mp hr with ⟨hrs, hrt⟩
    exact ⟨r, hrs, hrp, of_decide_eq_true hrt⟩
  · rintro ⟨r, hrs, hrp, hrt⟩
    exact List.mem_map.mpr ⟨r, List.mem_filter.mpr ⟨hrs, decide_eq_true hrt⟩, hrp⟩

theorem productsInWindow_nodup (snaps : List SnapshotRow) (cutoff : Nat) :
    (productsInWindow snaps cutoff).Nodup := by
  unfold productsInWindow
  exact List.nodup_dedup _

theorem mem_products_of_buyTop {snaps : List SnapshotRow} {cutoff : Nat} {pid : String}
    (h : buyTopFilter snaps cutoff pid ≠ []) : pid ∈ productsInWindow snaps cutoff := by
  rcases List.exists_mem_of_ne_nil _ h with ⟨r, hr⟩
  rcases List.mem_filter.mp hr with ⟨hrs, hrt⟩
  have hp := of_decide_eq_true hrt
  exact mem_productsInWindow.mpr ⟨r, hrs, hp.1, hp.2.1⟩

/-! ### The claims -/

/-- C1: a product with at least one BUY rank-1 snapshot at or after the cutoff
gets exactly one candle from `generate_candles` (starting from an empty candle
relation), whose open/close are the prices of the earliest/latest such
snapshot, high/low the max/min price, buy_volume the sum of the amounts, and
window_end the latest snapshot's timestamp; a product with no such snapshot
gets no candle. -/
theorem generate_candles_ohlcv (snaps : List SnapshotRow) (cutoff : Nat)
    (pid pid₂ : String)
    (hne : buyTopFilter snaps cutoff pid ≠ [])
    (hempty : buyTopFilter snaps cutoff pid₂ = []) :
    (∃ c, ((generateCandles cutoff { snaps := snaps, candles := [] }).candles.filter
        (fun x => decide (x.product_id = pid))) = [c] ∧
      (∃ f ∈ buyTopFilter snaps cutoff pid,
        (∀ r ∈ buyTopFilter snaps cutoff pid, f.timestamp ≤ r.timestamp) ∧
        c.open_price = f.price) ∧
      (∃ lst ∈ buyTopFilter snaps cutoff pid,
        (∀ r ∈ buyTopFilter snaps cutoff pid, r.timestamp ≤ lst.timestamp) ∧
        c.close_price = lst.price ∧ c.timestamp = lst.timestamp) ∧
      (∀ r ∈ buyTopFilter snaps cutoff pid, r.price ≤ c.high_price) ∧
      (∃ r ∈ buyTopFilter snaps cutoff pid, c.high_price = r.price) ∧
      (∀ r ∈ buyTopFilter snaps cutoff pid, c.low_price ≤ r.price) ∧
      (∃ r ∈ buyTopFilter snaps cutoff pid, c.low_price = r.price) ∧
      c.buy_volume = ((buyTopFilter snaps cutoff pid).map (fun r => r.amount)).sum) ∧
    ((generateCandles cutoff { snaps := snaps, candles := [] }).candles.filter
        (fun x => decide (x.product_id = pid₂))) = [] := by
  constructor
  · rcases candleOf_spec snaps cutoff pid hne with
      ⟨c, hc, _, hopen, hclose, hhigh, hhigh2, hlow, hlow2, hvol, _⟩
    refine ⟨c, ?_, hopen, hclose, hhigh, hhigh2, hlow, hlow2, hvol⟩
    show ((productsInWindow snaps cutoff).foldl (processProduct snaps cutoff) []).filter
        (fun x => decide (x.product_id = pid)) = [c]
    exact foldl_filter_unique hc _ [] (productsInWindow_nodup snaps cutoff)
      (mem_products_of_buyTop hne) rfl
  · show ((productsInWindow snaps cutoff).foldl (processProduct snaps cutoff) []).filter
        (fun x => decide (x.product_id = pid₂)) = []
    rw [foldl_filter_none (candleOf_eq_none hempty) _ []]
    rfl

/-- C1 witness: the spec's concrete example — BUY rank-1 snapshots of product
X at times 1 < 2 < 3 with prices 10, 14, 9 and amounts 100, 50, 25 yield the
single candle open=10, high=14, low=9, close=9, buy_volume=175, window_end=3;
product Y, which only has a SELL snapshot in the window, gets no candle. -/
theorem generate_candles_ohlcv_witness :
    ((∃ c, ((generateCandles 0 { snaps := [
        { product_id := "X", timestamp := 1, side := Side.BUY, rank := 1,
          price := 10, amount := 100, orders := 1 },
        { product_id := "X", timestamp := 2, side := Side.BUY, rank := 1,
          price := 14, amount := 50, orders := 1 },
        { product_id := "X", timestamp := 3, side := Side.BUY, rank := 1,
          price := 9, amount := 25, orders := 1 },
        { product_id := "Y", timestamp := 2, side := Side.SELL, rank := 1,
          price := 5, amount := 7, orders := 1 }], candles := [] }).candles.filter
            (fun x => decide (x.product_id = "X"))) = [c] ∧
      (∃ f ∈ buyTopFilter [
        { product_id := "X", timestamp := 1, side := Side.BUY, rank := 1,
          price := 10, amount := 100, orders := 1 },
        { product_id := "X", timestamp := 2, side := Side.BUY, rank := 1,
          price := 14, amount := 50, orders := 1 },
        { product_id := "X", timestamp := 3, side := Side.BUY, rank := 1,
          price := 9, amount := 25, orders := 1 },
        { product_id := "Y", timestamp := 2, side := Side.SELL, rank := 1,
          price := 5, amount := 7, orders := 1 }] 0 "X",
        (∀ r ∈ buyTopFilter [
        { product_id := "X", timestamp := 1, side := Side.BUY, rank := 1,
          price := 10, amount := 100, orders := 1 },
        { product_id := "X", timestamp := 2, side := Side.BUY, rank := 1,
          price := 14, amount := 50, orders := 1 },
        { product_id := "X", timestamp := 3, side := Side.BUY, rank := 1,
          price := 9, amount := 25, orders := 1 },
        { product_id := "Y", timestamp := 2, side := Side.SELL, rank := 1,
          price := 5, amount := 7, orders := 1 }] 0 "X", f.timestamp ≤ r.timestamp) ∧
        c.open_price = f.price) ∧
      (∃ lst ∈ buyTopFilter [
        { product_id := "X", timestamp := 1, side := Side.BUY, rank := 1,
          price := 10, amount := 100, orders := 1 },
        { product_id := "X", timestamp := 2, side := Side.BUY, rank := 1,
          price := 14, amount := 50, orders := 1 },
        { product_id := "X", timestamp := 3, side := Side.BUY, rank := 1,
          price := 9, amount := 25, orders := 1 },
        { product_id := "Y", timestamp := 2, side := Side.SELL, rank := 1,
          price := 5, amount := 7, orders := 1 }] 0 "X",
        (∀ r ∈ buyTopFilter [
        { product_id := "X", timestamp := 1, side := Side.BUY, rank := 1,
          price := 10, amount := 100, orders := 1 },
        { product_id := "X", timestamp := 2, side := Side.BUY, rank := 1,
          price := 14, amount := 50, orders := 1 },
        { product_id := "X", timestamp := 3, side := Side.BUY, rank := 1,
          price := 9, amount := 25, orders := 1 },
        { product_id := "Y", timestamp := 2, side := Side.SELL, rank := 1,
          price := 5, amount := 7, orders := 1 }] 0 "X", r.timestamp ≤ lst.timestamp) ∧
        c.close_price = lst.price ∧ c.timestamp = lst.timestamp) ∧
      (∀ r ∈ buyTopFilter [
        { product_id := "X", timestamp := 1, side := Side.BUY, rank := 1,
          price := 10, amount := 100, orders := 1 },
        { product_id := "X", timestamp := 2, side := Side.BUY, rank := 1,
          price := 14, amount := 50, orders := 1 },
        { product_id := "X", timestamp := 3, side := Side.BUY, rank := 1,
          price := 9, amount := 25, orders := 1 },
        { product_id := "Y", timestamp := 2, side := Side.SELL, rank := 1,
          price := 5, amount := 7, orders := 1 }] 0 "X", r.price ≤ c.high_price) ∧
      (∃ r ∈ buyTopFilter [
        { product_id := "X", timestamp := 1, side := Side.BUY, rank := 1,
          price := 10, amount := 100, orders := 1 },
        { product_id := "X", timestamp := 2, side := Side.BUY, rank := 1,
          price := 14, amount := 50, orders := 1 },
        { product_id := "X", timestamp := 3, side := Side.BUY, rank := 1,
          price := 9, amount := 25, orders := 1 },
        { product_id := "Y", timestamp := 2, side := Side.SELL, rank := 1,
          price := 5, amount := 7, orders := 1 }] 0 "X", c.high_price = r.price) ∧
      (∀ r ∈ buyTopFilter [
        { product_id := "X", timestamp := 1, side := Side.BUY, rank := 1,
          price := 10, amount := 100, orders := 1 },
        { product_id := "X", timestamp := 2, side := Side.BUY, rank := 1,
          price := 14, amount := 50, orders := 1 },
        { product_id := "X", timestamp := 3, side := Side.BUY, rank := 1,
          price := 9, amount := 25, orders := 1 },
        { product_id := "Y", timestamp := 2, side := Side.SELL, rank := 1,
          price := 5, amount := 7, orders := 1 }] 0 "X", c.low_price ≤ r.price) ∧
      (∃ r ∈ buyTopFilter [
        { product_id := "X", timestamp := 1, side := Side.BUY, rank := 1,
          price := 10, amount := 100, orders := 1 },
        { product_id := "X", timestamp := 2, side := Side.BUY, rank := 1,
          price := 14, amount := 50, orders := 1 },
        { product_id := "X", timestamp := 3, side := Side.BUY, rank := 1,
          price := 9, amount := 25, orders := 1 },
        { product_id := "Y", timestamp := 2, side := Side.SELL, rank := 1,
          price := 5, amount := 7, orders := 1 }] 0 "X", c.low_price = r.price) ∧
      c.buy_volume = ((buyTopFilter [
        { product_id := "X", timestamp := 1, side := Side.BUY, rank := 1,
          price := 10, amount := 100, orders := 1 },
        { product_id := "X", timestamp := 2, side := Side.BUY, rank := 1,
          price := 14, amount := 50, orders := 1 },
        { product_id := "X", timestamp := 3, side := Side.BUY, rank := 1,
          price := 9, amount := 25, orders := 1 },
        { product_id := "Y", timestamp := 2, side := Side.SELL, rank := 1,
          price := 5, amount := 7, orders := 1 }] 0 "X").map (fun r => r.amount)).sum) ∧
    ((generateCandles 0 { snaps := [
        { product_id := "X", timestamp := 1, side := Side.BUY, rank := 1,
          price := 10, amount := 100, orders := 1 },
        { product_id := "X", timestamp := 2, side := Side.BUY, rank := 1,
          price := 14, amount := 50, orders := 1 },
        { product_id := "X", timestamp := 3, side := Side.BUY, rank := 1,
          price := 9, amount := 25, orders := 1 },
        { product_id := "Y", timestamp := 2, side := Side.SELL, rank := 1,
          price := 5, amount := 7, orders := 1 }], candles := [] }).candles.filter
            (fun x => decide (x.product_id = "Y"))) = [])
    ∧ (generateCandles 0 { snaps := [
        { product_id := "X", timestamp := 1, side := Side.BUY, rank := 1,
          price := 10, amount := 100, orders := 1 },
        { product_id := "X", timestamp := 2, side := Side.BUY, rank := 1,
          price := 14, amount := 50, orders := 1 },
        { product_id := "X", timestamp := 3, side := Side.BUY, rank := 1,
          price := 9, amount := 25, orders := 1 },
        { product_id := "Y", timestamp := 2, side := Side.SELL, rank := 1,
          price := 5, amount := 7, orders := 1 }], candles := [] }).candles =
      [{ product_id := "X", timestamp := 3, open_price := 10, high_price := 14,
         low_price := 9, close_price := 9, buy_volume := 175, sell_volume := 0 }] :=
  ⟨generate_candles_ohlcv _ 0 "X" "Y" (by decide) (by decide), by decide⟩

/-- C3: re-running `generate_candles` over an unchanged window (same cutoff,
no snapshots added or removed in between) leaves both relations exactly as
after the first run — existing candles are updated in place to the same
values and no duplicate candle row appears. -/
theorem generate_candles_idempotent (db : DB) (cutoff : Nat) :
    generateCandles cutoff (generateCandles cutoff db) = generateCandles cutoff db := by
  show DB.mk _ _ = DB.mk _ _
  congr 1
  · exact sweep_idem db.snaps cutoff
  · show (productsInWindow (db.snaps.filter (fun r => decide (¬ r.timestamp < cutoff)))
        cutoff).foldl
        (processProduct (db.snaps.filter (fun r => decide (¬ r.timestamp < cutoff))) cutoff)
        ((productsInWindow db.snaps cutoff).foldl (processProduct db.snaps cutoff)
          db.candles) =
      (productsInWindow db.snaps cutoff).foldl (processProduct db.snaps cutoff) db.candles
    rw [productsInWindow_sweep, processProduct_sweep]
    apply foldl_process_noop
    intro q hq c hc
    exact keyHolds_foldl _ _ q c (productsInWindow_nodup db.snaps cutoff) hq hc

/-- C5: after `generate_candles` with cutoff C, every remaining snapshot has
timestamp at or after C, and any snapshot row at or after C survives with the
same multiplicity (neither deleted nor modified). -/
theorem retention_sweep_correct (db : DB) (cutoff : Nat) (r : SnapshotRow)
    (h : cutoff ≤ r.timestamp) :
    (∀ s ∈ (generateCandles cutoff db).snaps, cutoff ≤ s.timestamp) ∧
    (generateCandles cutoff db).snaps.count r = db.snaps.count r := by
  constructor
  · intro s hs
    have hs2 : s ∈ db.snaps.filter (fun x => decide (¬ x.timestamp < cutoff)) := hs
    exact Nat.not_lt.mp (of_decide_eq_true (List.mem_filter.mp hs2).2)
  · show (db.snaps.filter (fun x => decide (¬ x.timestamp < cutoff))).count r = _
    exact List.count_filter (decide_eq_true (Nat.not_lt.mpr h))

/-- C5 witness: with snapshots at times 1 and 5 and cutoff 3, the survivor set
contains only timestamps ≥ 3 and the time-5 row keeps its multiplicity. -/
theorem retention_sweep_correct_witness :
    (∀ s ∈ (generateCandles 3 { snaps := [
        { product_id := "X", timestamp := 5, side := Side.BUY, rank := 1,
          price := 2, amount := 4, orders := 1 },
        { product_id := "X", timestamp := 1, side := Side.BUY, rank := 1,
          price := 3, amount := 6, orders := 1 }], candles := [] }).snaps,
      3 ≤ s.timestamp) ∧
    (generateCandles 3 { snaps := [
        { product_id := "X", timestamp := 5, side := Side.BUY, rank := 1,
          price := 2, amount := 4, orders := 1 },
        { product_id := "X", timestamp := 1, side := Side.BUY, rank := 1,
          price := 3, amount := 6, orders := 1 }], candles := [] }).snaps.count
        ({ product_id := "X", timestamp := 5, side := Side.BUY, rank := 1,
            price := 2, amount := 4, orders := 1 } : SnapshotRow) =
      ([{ product_id := "X", timestamp := 5, side := Side.BUY, rank := 1,
          price := 2, amount := 4, orders := 1 },
        { product_id := "X", timestamp := 1, side := Side.BUY, rank := 1,
          price := 3, amount := 6, orders := 1 }] : List SnapshotRow).count
        ({ product_id := "X", timestamp := 5, side := Side.BUY, rank := 1,
            price := 2, amount := 4, orders := 1 } : SnapshotRow) :=
  retention_sweep_correct _ 3 _ (by decide)

/-- C10: candle production depends only on the BUY side — a product with BUY
rank-1 data but no SELL rank-1 data in the window still gets a candle, with
sell_volume 0, while a product with no BUY rank-1 data in the window never
produces (or disturbs) any candle. -/
theorem buy_side_drives_candles (db : DB) (cutoff : Nat) (pid pid₂ : String)
    (h1 : buyTopFilter db.snaps cutoff pid ≠ [])
    (h2 : sellTopFilter db.snaps cutoff pid = [])
    (h3 : buyTopFilter db.snaps cutoff pid₂ = []) :
    (∃ c ∈ (generateCandles cutoff db).candles,
      c.product_id = pid ∧ c.sell_volume = 0) ∧
    (generateCandles cutoff db).candles.filter (fun x => decide (x.product_id = pid₂)) =
      db.candles.filter (fun x => decide (x.product_id = pid₂)) := by
  constructor
  · rcases candleOf_spec db.snaps cutoff pid h1 with
      ⟨c, hc, hcp, _, _, _, _, _, _, _, hsell⟩
    have hsv : c.sell_volume = 0 := by rw [hsell, h2]; rfl
    have hkh : keyHolds c ((productsInWindow db.snaps cutoff).foldl
        (processProduct db.snaps cutoff) db.candles) :=
      keyHolds_foldl _ _ pid c (productsInWindow_nodup db.snaps cutoff)
        (mem_products_of_buyTop h1) hc
    rcases hkh.1 with ⟨x, hx, hmx⟩
    have hxc : x = c := hkh.2 x hx hmx
    exact ⟨x, hx, by rw [hxc]; exact hcp, by rw [hxc]; exact hsv⟩
  · show ((productsInWindow db.snaps cutoff).foldl (processProduct db.snaps cutoff)
        db.candles).filter (fun x => decide (x.product_id = pid₂)) = _
    exact foldl_filter_none (candleOf_eq_none h3) _ _

/-- C10 witness: product X has only a BUY rank-1 snapshot and gets a candle
with sell_volume 0; product Y has only a SELL snapshot and produces no
candle. -/
theorem buy_side_drives_candles_witness :
    (∃ c ∈ (generateCandles 0 { snaps := [
        { product_id := "X", timestamp := 1, side := Side.BUY, rank := 1,
          price := 10, amount := 100, orders := 1 },
        { product_id := "Y", timestamp := 1, side := Side.SELL, rank := 1,
          price := 5, amount := 7, orders := 1 }], candles := [] }).candles,
      c.product_id = "X" ∧ c.sell_volume = 0) ∧
    (generateCandles 0 { snaps := [
        { product_id := "X", timestamp := 1, side := Side.BUY, rank := 1,
          price := 10, amount := 100, orders := 1 },
        { product_id := "Y", timestamp := 1, side := Side.SELL, rank := 1,
          price := 5, amount := 7, orders := 1 }], candles := [] }).candles.filter
        (fun x => decide (x.product_id = "Y")) =
      List.filter (fun x => decide (x.product_id = "Y")) [] :=
  buy_side_drives_candles { snaps := [
        { product_id := "X", timestamp := 1, side := Side.BUY, rank := 1,
          price := 10, amount := 100, orders := 1 },
        { product_id := "Y", timestamp := 1, side := Side.SELL, rank := 1,
          price := 5, amount := 7, orders := 1 }], candles := [] } 0 "X" "Y"
    (by decide) (by decide) (by decide)

/-! ### Helper lemmas: the snapshot insert -/

theorem snapKeyEq_refl (r : SnapshotRow) : snapKeyEq r r := ⟨rfl, rfl, rfl, rfl⟩

theorem insertSnapshot_present_self (store : List SnapshotRow) (r : SnapshotRow) :
    (insertSnapshot store r).any (fun s => decide (snapKeyEq s r)) = true := by
  unfold insertSnapshot
  by_cases hany : store.any (fun s => decide (snapKeyEq s r)) = true
  · rw [if_pos hany]; exact hany
  · rw [if_neg hany, List.any_append]
    apply Bool.or_eq_true_iff.mpr
    exact Or.inr (by simp [snapKeyEq_refl r])

theorem insertSnapshot_present_mono {p : SnapshotRow → Bool} {store : List SnapshotRow}
    (x : SnapshotRow) (h : store.any p = true) : (insertSnapshot store x).any p = true := by
  unfold insertSnapshot
  by_cases hany : store.any (fun s => decide (snapKeyEq s x)) = true
  · rw [if_pos hany]; exact h
  · rw [if_neg hany, List.any_append]
    exact Bool.or_eq_true_iff.mpr (Or.inl h)

theorem insertRows_present_mono {p : SnapshotRow → Bool} :
    ∀ (rows : List SnapshotRow) (store : List SnapshotRow), store.any p = true →
      (insertRows store rows).any p = true
  | [], _, h => h
  | x :: rows, store, h =>
      insertRows_present_mono rows (insertSnapshot store x)
        (insertSnapshot_present_mono x h)

theorem insertRows_all_present :
    ∀ (rows : List SnapshotRow) (store : List SnapshotRow), ∀ r ∈ rows,
      (insertRows store rows).any (fun s => decide (snapKeyEq s r)) = true
  | x :: rows, store, r, hr => by
      rcases List.mem_cons.mp hr with rfl | hr2
      · exact insertRows_present_mono rows _ (insertSnapshot_present_self store r)
      · exact insertRows_all_present rows (insertSnapshot store x) r hr2

theorem insertSnapshot_noop {store : List SnapshotRow} {r : SnapshotRow}
    (h : store.any (fun s => decide (snapKeyEq s r)) = true) :
    insertSnapshot store r = store := by
  unfold insertSnapshot
  rw [if_pos h]

theorem insertRows_noop :
    ∀ {rows : List SnapshotRow} {store : List SnapshotRow},
      (∀ r ∈ rows, store.any (fun s => decide (snapKeyEq s r)) = true) →
      insertRows store rows = store
  | [], _, _ => rfl
  | x :: rows, store, h => by
      show insertRows (insertSnapshot store x) rows = store
      rw [insertSnapshot_noop (h x (List.mem_cons_self x rows))]
      exact insertRows_noop (fun r hr => h r (List.mem_cons_of_mem x hr))

/-- C2: snapshot writes are idempotent — re-inserting a row with the same
(product_id, timestamp, side, rank) key is a no-op, a fresh insert leaves
exactly one row with that key, and re-running a whole batch insert leaves the
store exactly as after the first run. -/
theorem snapshot_write_idempotent (store : List SnapshotRow) (r : SnapshotRow)
    (rows : List SnapshotRow) (h : ∀ s ∈ store, ¬ snapKeyEq s r) :
    insertSnapshot (insertSnapshot store r) r = insertSnapshot store r ∧
    (insertSnapshot store r).countP (fun s => decide (snapKeyEq s r)) = 1 ∧
    insertRows (insertRows store rows) rows = insertRows store rows := by
  refine ⟨insertSnapshot_noop (insertSnapshot_present_self store r), ?_, ?_⟩
  · have hany : ¬ store.any (fun s => decide (snapKeyEq s r)) = true := by
      intro hc
      rcases List.any_eq_true.mp hc with ⟨s, hs, hm⟩
      exact h s hs (of_decide_eq_true hm)
    unfold insertSnapshot
    rw [if_neg hany, List.countP_append]
    have h0 : store.countP (fun s => decide (snapKeyEq s r)) = 0 :=
      List.countP_eq_zero.mpr (fun s hs hm => h s hs (of_decide_eq_true hm))
    rw [h0]
    simp [snapKeyEq_refl r]
  · exact insertRows_noop (insertRows_all_present rows store)

/-- C2 witness: inserting one concrete row twice into the empty store, and
re-running a two-row batch, both leave a single copy of each row. -/
theorem snapshot_write_idempotent_witness :
    insertSnapshot (insertSnapshot []
        { product_id := "X", timestamp := 1, side := Side.BUY, rank := 1,
          price := 2, amount := 3, orders := 4 })
        { product_id := "X", timestamp := 1, side := Side.BUY, rank := 1,
          price := 2, amount := 3, orders := 4 } =
      insertSnapshot []
        { product_id := "X", timestamp := 1, side := Side.BUY, rank := 1,
          price := 2, amount := 3, orders := 4 } ∧
    (insertSnapshot []
        { product_id := "X", timestamp := 1, side := Side.BUY, rank := 1,
          price := 2, amount := 3, orders := 4 }).countP
        (fun s => decide (snapKeyEq s
          { product_id := "X", timestamp := 1, side := Side.BUY, rank := 1,
            price := 2, amount := 3, orders := 4 })) = 1 ∧
    insertRows (insertRows []
        [{ product_id := "X", timestamp := 1, side := Side.BUY, rank := 1,
           price := 2, amount := 3, orders := 4 },
         { product_id := "X", timestamp := 1, side := Side.SELL, rank := 1,
           price := 5, amount := 6, orders := 7 }])
        [{ product_id := "X", timestamp := 1, side := Side.BUY, rank := 1,
           price := 2, amount := 3, orders := 4 },
         { product_id := "X", timestamp := 1, side := Side.SELL, rank := 1,
           price := 5, amount := 6, orders := 7 }] =
      insertRows []
        [{ product_id := "X", timestamp := 1, side := Side.BUY, rank := 1,
           price := 2, amount := 3, orders := 4 },
         { product_id := "X", timestamp := 1, side := Side.SELL, rank := 1,
           price := 5, amount := 6, orders := 7 }] :=
  snapshot_write_idempotent [] _ _ (by decide)

/-! ### Helper lemmas: the filter loop -/

theorem except_ok_bind {α ε β : Type} (a : α) (k : α → Except ε β) :
    (Except.ok a : Except ε α) >>= k = k a := rfl

theorem except_error_bind {α ε β : Type} (e : ε) (k : α → Except ε β) :
    (Except.error e : Except ε α) >>= k = Except.error e := rfl

theorem filterLoop_cons_skip (now : Nat) (pid : String) (pd : RawProduct)
    (rest : List (String × RawProduct))
    (h : pd.buy_summary.getD [] = [] ∨ pd.sell_summary.getD [] = []) :
    filterLoop now ((pid, pd) :: rest) = filterLoop now rest := by
  rcases hb : pd.buy_summary.getD [] with _ | ⟨b0, bs⟩
  · simp only [filterLoop, hb]
  · rcases hs : pd.sell_summary.getD [] with _ | ⟨s0, ss⟩
    · simp only [filterLoop, hb, hs]
    · rcases h with h1 | h1
      · rw [hb] at h1; exact absurd h1 (List.cons_ne_nil b0 bs)
      · rw [hs] at h1; exact absurd h1 (List.cons_ne_nil s0 ss)

theorem filterLoop_cons_keyError (now : Nat) (pid : String) (pd : RawProduct)
    (rest : List (String × RawProduct)) (b0 : RawLevel) (bs : List RawLevel)
    (s0 : RawLevel) (ss : List RawLevel)
    (hb : pd.buy_summary.getD [] = b0 :: bs)
    (hs : pd.sell_summary.getD [] = s0 :: ss)
    (hmiss : b0.pricePerUnit = none) :
    filterLoop now ((pid, pd) :: rest) = Except.error "KeyError: pricePerUnit" := by
  simp only [filterLoop, hb, hs, getKey, hmiss, except_error_bind]
  rfl

theorem filterLoop_cons_prices (now : Nat) (pid : String) (pd : RawProduct)
    (rest : List (String × RawProduct)) (b0 : RawLevel) (bs : List RawLevel)
    (s0 : RawLevel) (ss : List RawLevel) (pb ps2 : ℚ)
    (hb : pd.buy_summary.getD [] = b0 :: bs)
    (hs : pd.sell_summary.getD [] = s0 :: ss)
    (hpb : b0.pricePerUnit = some pb)
    (hps : s0.pricePerUnit = some ps2) :
    filterLoop now ((pid, pd) :: rest) =
      if pb < 7/10 ∨ ps2 < 7/10 then filterLoop now rest
      else (filterLoop now rest >>= fun out =>
        Except.ok ({ product_id := pid, timestamp := now,
                     buy_orders := (b0 :: bs).take 5,
                     sell_orders := (s0 :: ss).take 5 } :: out)) := by
  simp only [filterLoop, hb, hs, getKey, hpb, hps, except_ok_bind]

theorem filterLoop_cons_keyError_sell (now : Nat) (pid : String) (pd : RawProduct)
    (rest : List (String × RawProduct)) (b0 : RawLevel) (bs : List RawLevel)
    (s0 : RawLevel) (ss : List RawLevel) (pb : ℚ)
    (hb : pd.buy_summary.getD [] = b0 :: bs)
    (hs : pd.sell_summary.getD [] = s0 :: ss)
    (hpb : b0.pricePerUnit = some pb)
    (hmiss : s0.pricePerUnit = none) :
    filterLoop now ((pid, pd) :: rest) = Except.error "KeyError: pricePerUnit" := by
  simp only [filterLoop, hb, hs, getKey, hpb, hmiss, except_ok_bind, except_error_bind]
  rfl

theorem filterLoop_sound (now : Nat) :
    ∀ (l : List (String × RawProduct)) (out : List ProductInfo),
      filterLoop now l = Except.ok out →
      (∀ p ∈ out, p.timestamp = now ∧ p.buy_orders.length ≤ 5 ∧
        p.sell_orders.length ≤ 5 ∧
        ∃ e ∈ l, p.product_id = e.1 ∧
          p.buy_orders = (e.2.buy_summary.getD []).take 5 ∧
          p.sell_orders = (e.2.sell_summary.getD []).take 5) ∧
      ∀ pid, (∃ p ∈ out, p.product_id = pid) ↔
        ∃ e ∈ l, e.1 = pid ∧ e.2.buy_summary.getD [] ≠ [] ∧
          e.2.sell_summary.getD [] ≠ [] ∧
          ∃ pb ps2,
            (e.2.buy_summary.getD []).head?.bind (fun lv => lv.pricePerUnit) = some pb ∧
            (e.2.sell_summary.getD []).head?.bind (fun lv => lv.pricePerUnit) = some ps2 ∧
            7/10 ≤ pb ∧ 7/10 ≤ ps2
  | [], out, h => by
      simp only [filterLoop] at h
      injection h with h2
      subst h2
      constructor
      · intro p hp; exact absurd hp (List.not_mem_nil p)
      · intro pid
        constructor
        · rintro ⟨p, hp, _⟩; exact absurd hp (List.not_mem_nil p)
        · rintro ⟨e, he, _⟩; exact absurd he (List.not_mem_nil e)
  | (pid0, pd) :: rest, out, h => by
      by_cases hempty : pd.buy_summary.getD [] = [] ∨ pd.sell_summary.getD [] = []
      · rw [filterLoop_cons_skip now pid0 pd rest hempty] at h
        obtain ⟨ih1, ih2⟩ := filterLoop_sound now rest out h
        refine ⟨?_, fun pid => ?_⟩
        · intro p hp
          obtain ⟨ht, hb5, hs5, e, he, hpe⟩ := ih1 p hp
          exact ⟨ht, hb5, hs5, e, List.mem_cons_of_mem _ he, hpe⟩
        rw [ih2 pid]
        constructor
        · rintro ⟨e, he, hc⟩; exact ⟨e, List.mem_cons_of_mem _ he, hc⟩
        · rintro ⟨e, he, hc⟩
          rcases List.mem_cons.mp he with rfl | he2
          · rcases hempty with h1 | h1
            · exact absurd h1 hc.2.1
            · exact absurd h1 hc.2.2.1
          · exact ⟨e, he2, hc⟩
      · push_neg at hempty
        obtain ⟨hbne, hsne⟩ := hempty
        rcases hb : pd.buy_summary.getD [] with _ | ⟨b0, bs⟩
        · exact absurd hb hbne
        rcases hs : pd.sell_summary.getD [] with _ | ⟨s0, ss⟩
        · exact absurd hs hsne
        rcases hpb : b0.pricePerUnit with _ | pb
        · rw [filterLoop_cons_keyError now pid0 pd rest b0 bs s0 ss hb hs hpb] at h
          exact Except.noConfusion h
        rcases hps : s0.pricePerUnit with _ | ps2
        · rw [filterLoop_cons_keyError_sell now pid0 pd rest b0 bs s0 ss pb hb hs hpb hps]
            at h
          exact Except.noConfusion h
        rw [filterLoop_cons_prices now pid0 pd rest b0 bs s0 ss pb ps2 hb hs hpb hps] at h
        by_cases hcond : pb < 7/10 ∨ ps2 < 7/10
        · rw [if_pos hcond] at h
          obtain ⟨ih1, ih2⟩ := filterLoop_sound now rest out h
          refine ⟨?_, fun pid => ?_⟩
          · intro p hp
            obtain ⟨ht, hb5, hs5, e, he, hpe⟩ := ih1 p hp
            exact ⟨ht, hb5, hs5, e, List.mem_cons_of_mem _ he, hpe⟩
          rw [ih2 pid]
          constructor
          · rintro ⟨e, he, hc⟩; exact ⟨e, List.mem_cons_of_mem _ he, hc⟩
          · rintro ⟨e, he, hc⟩
            rcases List.mem_cons.mp he with rfl | he2
            · obtain ⟨_, _, _, pb2, ps3, hpb2, hps2, hge1, hge2⟩ := hc
              rw [hb] at hpb2
              rw [hs] at hps2
              simp only [List.head?_cons, Option.some_bind, hpb, hps,
                Option.some.injEq] at hpb2 hps2
              subst hpb2
              subst hps2
              rcases hcond with hlt | hlt
              · exact absurd hge1 (not_le.mpr hlt)
              · exact absurd hge2 (not_le.mpr hlt)
            · exact ⟨e, he2, hc⟩
        · rw [if_neg hcond] at h
          push_neg at hcond
          obtain ⟨hge1, hge2⟩ := hcond
          rcases hrest : filterLoop now rest with e | out2
          · rw [hrest, except_error_bind] at h
            exact Except.noConfusion h
          rw [hrest, except_ok_bind] at h
          injection h with h2
          subst h2
          obtain ⟨ih1, ih2⟩ := filterLoop_sound now rest out2 hrest
          constructor
          · intro p hp
            rcases List.mem_cons.mp hp with rfl | hp2
            · refine ⟨rfl, List.length_take_le 5 _, List.length_take_le 5 _,
                (pid0, pd), List.mem_cons_self _ _, rfl, ?_, ?_⟩
              · rw [hb]
              · rw [hs]
            · obtain ⟨ht, hb5, hs5, e, he, hpe⟩ := ih1 p hp2
              exact ⟨ht, hb5, hs5, e, List.mem_cons_of_mem _ he, hpe⟩
          · intro pid
            constructor
            · rintro ⟨p, hp, hpid⟩
              rcases List.mem_cons.mp hp with rfl | hp2
              · refine ⟨(pid0, pd), List.mem_cons_self _ _, hpid, hbne, hsne,
                  pb, ps2, ?_, ?_, hge1, hge2⟩
                · rw [hb]; simp [hpb]
                · rw [hs]; simp [hps]
              · rcases (ih2 pid).mp ⟨p, hp2, hpid⟩ with ⟨e, he, hc⟩
                exact ⟨e, List.mem_cons_of_mem _ he, hc⟩
            · rintro ⟨e, he, hc⟩
              rcases List.mem_cons.mp he with rfl | he2
              · exact ⟨{ product_id := pid0, timestamp := now,
                         buy_orders := (b0 :: bs).take 5,
                         sell_orders := (s0 :: ss).take 5 },
                  List.mem_cons_self _ _, hc.1⟩
              · rcases (ih2 pid).mpr ⟨e, he2, hc⟩ with ⟨p, hp, hpid⟩
                exact ⟨p, List.mem_cons_of_mem _ hp, hpid⟩

theorem rowsOfSide_fields (pid : String) (ts : Nat) (side : Side) :
    ∀ (levels : List RawLevel) (k : Nat) (rows : List SnapshotRow),
      rowsOfSide pid ts side k levels = Except.ok rows →
      ∀ r ∈ rows, r.timestamp = ts ∧ r.product_id = pid
  | [], _, rows, h => by
      simp only [rowsOfSide] at h
      injection h with h2
      subst h2
      intro r hr; exact absurd hr (List.not_mem_nil r)
  | lv :: rest, k, rows, h => by
      rcases hp : lv.pricePerUnit with _ | p
      · simp only [rowsOfSide, getKey, hp, except_error_bind] at h
        exact Except.noConfusion h
      rcases ha : lv.amount with _ | a
      · simp only [rowsOfSide, getKey, hp, ha, except_ok_bind, except_error_bind] at h
        exact Except.noConfusion h
      rcases ho : lv.orders with _ | o
      · simp only [rowsOfSide, getKey, hp, ha, ho, except_ok_bind, except_error_bind] at h
        exact Except.noConfusion h
      rcases hrec : rowsOfSide pid ts side (k + 1) rest with e | tl
      · simp only [rowsOfSide, getKey, hp, ha, ho, except_ok_bind, hrec,
          except_error_bind] at h
        exact Except.noConfusion h
      · simp only [rowsOfSide, getKey, hp, ha, ho, except_ok_bind, hrec] at h
        injection h with h2
        subst h2
        intro r hr
        rcases List.mem_cons.mp hr with rfl | hr2
        · exact ⟨rfl, rfl⟩
        · exact rowsOfSide_fields pid ts side rest (k + 1) tl hrec r hr2

theorem rowsOfProduct_ts (p : ProductInfo) (rows : List SnapshotRow)
    (h : rowsOfProduct p = Except.ok rows) :
    ∀ r ∈ rows, r.timestamp = p.timestamp := by
  unfold rowsOfProduct at h
  rcases hbuy : rowsOfSide p.product_id p.timestamp Side.BUY 1 p.buy_orders with e | brows
  · rw [hbuy, except_error_bind] at h
    exact Except.noConfusion h
  rcases hsell : rowsOfSide p.product_id p.timestamp Side.SELL 1 p.sell_orders
    with e | srows
  · rw [hbuy, except_ok_bind, hsell, except_error_bind] at h
    exact Except.noConfusion h
  rw [hbuy, except_ok_bind, hsell, except_ok_bind] at h
  injection h with h2
  subst h2
  intro r hr
  rcases List.mem_append.mp hr with h1 | h1
  · exact (rowsOfSide_fields _ _ _ p.buy_orders 1 brows hbuy r h1).1
  · exact (rowsOfSide_fields _ _ _ p.sell_orders 1 srows hsell r h1).1

theorem rowsOfProducts_ts :
    ∀ (ps : List ProductInfo) (rows : List SnapshotRow),
      rowsOfProducts ps = Except.ok rows →
      ∀ r ∈ rows, ∃ p ∈ ps, r.timestamp = p.timestamp
  | [], rows, h => by
      simp only [rowsOfProducts] at h
      injection h with h2
      subst h2
      intro r hr; exact absurd hr (List.not_mem_nil r)
  | p :: ps, rows, h => by
      simp only [rowsOfProducts] at h
      rcases hp : rowsOfProduct p with e | prows
      · rw [hp, except_error_bind] at h
        exact Except.noConfusion h
      rcases hps : rowsOfProducts ps with e | more
      · rw [hp, except_ok_bind, hps, except_error_bind] at h
        exact Except.noConfusion h
      rw [hp, except_ok_bind, hps, except_ok_bind] at h
      injection h with h2
      subst h2
      intro r hr
      rcases List.mem_append.mp hr with h1 | h1
      · exact ⟨p, List.mem_cons_self _ _, rowsOfProduct_ts p prows hp r h1⟩
      · rcases rowsOfProducts_ts ps more hps r h1 with ⟨q, hq, hts⟩
        exact ⟨q, List.mem_cons_of_mem _ hq, hts⟩

/-- C4: a product appears in the filter's output exactly when it has at least
one buy level, at least one sell level, and both top-of-book prices are at
least 0.7; every kept product's books are exactly the first 5 levels of its
raw buy and sell summaries, so at most 5 levels per side and never a level
beyond the first 5. -/
theorem filter_products_correct (data : Option RawData) (now : Nat)
    (out : List ProductInfo)
    (h : filterAndExtractProducts data now = Except.ok out) :
    (∀ pid, (∃ p ∈ out, p.product_id = pid) ↔
      ∃ e ∈ data.elim ([] : List (String × RawProduct)) (fun d => d.products.getD []),
        e.1 = pid ∧ e.2.buy_summary.getD [] ≠ [] ∧ e.2.sell_summary.getD [] ≠ [] ∧
        ∃ pb ps2,
          (e.2.buy_summary.getD []).head?.bind (fun lv => lv.pricePerUnit) = some pb ∧
          (e.2.sell_summary.getD []).head?.bind (fun lv => lv.pricePerUnit) = some ps2 ∧
          7/10 ≤ pb ∧ 7/10 ≤ ps2) ∧
    (∀ p ∈ out, p.buy_orders.length ≤ 5 ∧ p.sell_orders.length ≤ 5) ∧
    (∀ p ∈ out,
      ∃ e ∈ data.elim ([] : List (String × RawProduct)) (fun d => d.products.getD []),
        p.product_id = e.1 ∧
        p.buy_orders = (e.2.buy_summary.getD []).take 5 ∧
        p.sell_orders = (e.2.sell_summary.getD []).take 5) := by
  rcases data with _ | d
  · simp only [filterAndExtractProducts] at h
    injection h with h2
    subst h2
    refine ⟨fun pid => ?_, fun p hp => absurd hp (List.not_mem_nil p),
      fun p hp => absurd hp (List.not_mem_nil p)⟩
    constructor
    · rintro ⟨p, hp, _⟩; exact absurd hp (List.not_mem_nil p)
    · rintro ⟨e, he, _⟩; exact absurd he (List.not_mem_nil e)
  · rcases hps : d.products with _ | prods
    · simp only [filterAndExtractProducts, hps] at h
      injection h with h2
      subst h2
      refine ⟨fun pid => ?_, fun p hp => absurd hp (List.not_mem_nil p),
        fun p hp => absurd hp (List.not_mem_nil p)⟩
      constructor
      · rintro ⟨p, hp, _⟩; exact absurd hp (List.not_mem_nil p)
      · rintro ⟨e, he, _⟩
        have he2 : e ∈ d.products.getD [] := he
        rw [hps] at he2
        exact absurd he2 (List.not_mem_nil e)
    · simp only [filterAndExtractProducts, hps] at h
      obtain ⟨h1, h2⟩ := filterLoop_sound now prods out h
      have hl : Option.elim (some d) ([] : List (String × RawProduct))
          (fun d => d.products.getD []) = prods := by
        show d.products.getD [] = prods
        rw [hps]
        rfl
      refine ⟨fun pid => ?_, fun p hp => ⟨(h1 p hp).2.1, (h1 p hp).2.2.1⟩,
        fun p hp => ?_⟩
      · rw [h2 pid, hl]
      · rw [hl]
        exact (h1 p hp).2.2.2

/-- C6 counterexample: a batch with a product whose top buy level lacks
`pricePerUnit` followed by a perfectly well-formed product makes the whole
filter call fail with `KeyError`; the good product is not extracted, so the
malformed product is not merely skipped. -/
theorem shape_failure_counterexample :
    filterAndExtractProducts (some { products := some [
      ("BAD", { buy_summary := some [{ pricePerUnit := none, amount := some 1,
                                       orders := some 1 }],
                sell_summary := some [{ pricePerUnit := some 1, amount := some 1,
                                        orders := some 1 }] }),
      ("GOOD", { buy_summary := some [{ pricePerUnit := some 5, amount := some 2,
                                        orders := some 3 }],
                 sell_summary := some [{ pricePerUnit := some 6, amount := some 4,
                                         orders := some 5 }] })] }) 0 =
      Except.error "KeyError: pricePerUnit" := rfl

/-- C6 amended: a product with a missing or empty buy or sell side is skipped
and the batch continues, but a product whose top buy level lacks
`pricePerUnit` raises an uncaught `KeyError` that fails the entire batch
instead of skipping just that product. -/
theorem shape_failure_amended (now : Nat) (pid pid2 : String) (pd pd2 : RawProduct)
    (rest : List (String × RawProduct)) (b0 : RawLevel) (bs : List RawLevel)
    (s0 : RawLevel) (ss : List RawLevel)
    (hskip : pd.buy_summary.getD [] = [] ∨ pd.sell_summary.getD [] = [])
    (hb : pd2.buy_summary.getD [] = b0 :: bs)
    (hs : pd2.sell_summary.getD [] = s0 :: ss)
    (hmiss : b0.pricePerUnit = none) :
    filterLoop now ((pid, pd) :: rest) = filterLoop now rest ∧
    filterLoop now ((pid2, pd2) :: rest) = Except.error "KeyError: pricePerUnit" :=
  ⟨filterLoop_cons_skip now pid pd rest hskip,
   filterLoop_cons_keyError now pid2 pd2 rest b0 bs s0 ss hb hs hmiss⟩

/-- C8: every product normalized in one fetch cycle carries the shared capture
timestamp, and so does every snapshot row built from that batch. -/
theorem batch_shares_timestamp (data : Option RawData) (now : Nat)
    (out : List ProductInfo) (rows : List SnapshotRow)
    (h1 : filterAndExtractProducts data now = Except.ok out)
    (h2 : rowsOfProducts out = Except.ok rows) :
    (∀ p ∈ out, p.timestamp = now) ∧ (∀ r ∈ rows, r.timestamp = now) := by
  have hout : ∀ p ∈ out, p.timestamp = now := by
    rcases data with _ | d
    · simp only [filterAndExtractProducts] at h1
      injection h1 with h3
      subst h3
      intro p hp; exact absurd hp (List.not_mem_nil p)
    · rcases hps : d.products with _ | prods
      · simp only [filterAndExtractProducts, hps] at h1
        injection h1 with h3
        subst h3
        intro p hp; exact absurd hp (List.not_mem_nil p)
      · simp only [filterAndExtractProducts, hps] at h1
        exact fun p hp => ((filterLoop_sound now prods out h1).1 p hp).1
  refine ⟨hout, fun r hr => ?_⟩
  rcases rowsOfProducts_ts out rows h2 r hr with ⟨p, hp, hts⟩
  rw [hts, hout p hp]

/-- C4 witness: of three raw products — one liquid, one with an empty buy
side, one with top buy price 1/2 < 0.7 — only the liquid one is kept, and
its books have at most 5 levels. -/
theorem filter_products_correct_witness :
    (∀ pid, (∃ p ∈ [({ product_id := "GOOD", timestamp := 7,
                       buy_orders := [
                         { pricePerUnit := some 5, amount := some 2, orders := some 3 },
                         { pricePerUnit := some 4, amount := some 9, orders := some 1 }],
                       sell_orders := [
                         { pricePerUnit := some 6, amount := some 4, orders := some 5 }]
                     } : ProductInfo)], p.product_id = pid) ↔
      ∃ e ∈ (some { products := some [
              ("GOOD", { buy_summary := some [
                           { pricePerUnit := some 5, amount := some 2,
                             orders := some 3 },
                           { pricePerUnit := some 4, amount := some 9,
                             orders := some 1 }],
                         sell_summary := some [
                           { pricePerUnit := some 6, amount := some 4,
                             orders := some 5 }] }),
              ("NOBUY", { buy_summary := some [],
                          sell_summary := some [
                            { pricePerUnit := some 1, amount := some 1,
                              orders := some 1 }] }),
              ("CHEAP", { buy_summary := some [
                            { pricePerUnit := some (1/2), amount := some 1,
                              orders := some 1 }],
                          sell_summary := some [
                            { pricePerUnit := some 1, amount := some 1,
                              orders := some 1 }] })] } : Option RawData).elim
          ([] : List (String × RawProduct)) (fun d => d.products.getD []),
        e.1 = pid ∧ e.2.buy_summary.getD [] ≠ [] ∧ e.2.sell_summary.getD [] ≠ [] ∧
        ∃ pb ps2,
          (e.2.buy_summary.getD []).head?.bind (fun lv => lv.pricePerUnit) = some pb ∧
          (e.2.sell_summary.getD []).head?.bind (fun lv => lv.pricePerUnit) = some ps2 ∧
          7/10 ≤ pb ∧ 7/10 ≤ ps2) ∧
    (∀ p ∈ [({ product_id := "GOOD", timestamp := 7,
               buy_orders := [
                 { pricePerUnit := some 5, amount := some 2, orders := some 3 },
                 { pricePerUnit := some 4, amount := some 9, orders := some 1 }],
               sell_orders := [
                 { pricePerUnit := some 6, amount := some 4, orders := some 5 }]
             } : ProductInfo)],
      p.buy_orders.length ≤ 5 ∧ p.sell_orders.length ≤ 5) ∧
    (∀ p ∈ [({ product_id := "GOOD", timestamp := 7,
               buy_orders := [
                 { pricePerUnit := some 5, amount := some 2, orders := some 3 },
                 { pricePerUnit := some 4, amount := some 9, orders := some 1 }],
               sell_orders := [
                 { pricePerUnit := some 6, amount := some 4, orders := some 5 }]
             } : ProductInfo)],
      ∃ e ∈ (some { products := some [
              ("GOOD", { buy_summary := some [
                           { pricePerUnit := some 5, amount := some 2,
                             orders := some 3 },
                           { pricePerUnit := some 4, amount := some 9,
                             orders := some 1 }],
                         sell_summary := some [
                           { pricePerUnit := some 6, amount := some 4,
                             orders := some 5 }] }),
              ("NOBUY", { buy_summary := some [],
                          sell_summary := some [
                            { pricePerUnit := some 1, amount := some 1,
                              orders := some 1 }] }),
              ("CHEAP", { buy_summary := some [
                            { pricePerUnit := some (1/2), amount := some 1,
                              orders := some 1 }],
                          sell_summary := some [
                            { pricePerUnit := some 1, amount := some 1,
                              orders := some 1 }] })] } : Option RawData).elim
          ([] : List (String × RawProduct)) (fun d => d.products.getD []),
        p.product_id = e.1 ∧
        p.buy_orders = (e.2.buy_summary.getD []).take 5 ∧
        p.sell_orders = (e.2.sell_summary.getD []).take 5) :=
  filter_products_correct _ 7 _ (by
    norm_num [filterAndExtractProducts, filterLoop, getKey, except_ok_bind,
      except_error_bind])

/-- C6 amended witness: a product with an empty buy side is skipped while the
batch continues to the next product, and a product whose top buy level lacks
pricePerUnit fails the whole batch. -/
theorem shape_failure_amended_witness :
    filterLoop 0 [("EMPTY", { buy_summary := some [],
                              sell_summary := some [
                                { pricePerUnit := some 1, amount := some 1,
                                  orders := some 1 }] }),
      ("GOOD", { buy_summary := some [
                   { pricePerUnit := some 5, amount := some 2, orders := some 3 }],
                 sell_summary := some [
                   { pricePerUnit := some 6, amount := some 4, orders := some 5 }] })] =
      filterLoop 0 [("GOOD", { buy_summary := some [
                                 { pricePerUnit := some 5, amount := some 2,
                                   orders := some 3 }],
                               sell_summary := some [
                                 { pricePerUnit := some 6, amount := some 4,
                                   orders := some 5 }] })] ∧
    filterLoop 0 [("BAD", { buy_summary := some [
                              { pricePerUnit := none, amount := some 1,
                                orders := some 1 }],
                            sell_summary := some [
                              { pricePerUnit := some 1, amount := some 1,
                                orders := some 1 }] }),
      ("GOOD", { buy_summary := some [
                   { pricePerUnit := some 5, amount := some 2, orders := some 3 }],
                 sell_summary := some [
                   { pricePerUnit := some 6, amount := some 4, orders := some 5 }] })] =
      Except.error "KeyError: pricePerUnit" :=
  shape_failure_amended 0 "EMPTY" "BAD"
    { buy_summary := some [],
      sell_summary := some [
        { pricePerUnit := some 1, amount := some 1, orders := some 1 }] }
    { buy_summary := some [
        { pricePerUnit := none, amount := some 1, orders := some 1 }],
      sell_summary := some [
        { pricePerUnit := some 1, amount := some 1, orders := some 1 }] }
    [("GOOD", { buy_summary := some [
                  { pricePerUnit := some 5, amount := some 2, orders := some 3 }],
                sell_summary := some [
                  { pricePerUnit := some 6, amount := some 4, orders := some 5 }] })]
    { pricePerUnit := none, amount := some 1, orders := some 1 } []
    { pricePerUnit := some 1, amount := some 1, orders := some 1 } []
    (Or.inl rfl) rfl rfl rfl

/-- C8 witness: the one-product batch captured at time 9 yields a product
stamped 9 and two snapshot rows both stamped 9. -/
theorem batch_shares_timestamp_witness :
    (∀ p ∈ [({ product_id := "GOOD", timestamp := 9,
               buy_orders := [
                 { pricePerUnit := some 5, amount := some 2, orders := some 3 }],
               sell_orders := [
                 { pricePerUnit := some 6, amount := some 4, orders := some 5 }]
             } : ProductInfo)], p.timestamp = 9) ∧
    (∀ r ∈ [({ product_id := "GOOD", timestamp := 9, side := Side.BUY, rank := 1,
               price := 5, amount := 2, orders := 3 } : SnapshotRow),
            ({ product_id := "GOOD", timestamp := 9, side := Side.SELL, rank := 1,
               price := 6, amount := 4, orders := 5 } : SnapshotRow)],
      r.timestamp = 9) :=
  batch_shares_timestamp (some { products := some [
      ("GOOD", { buy_summary := some [
                   { pricePerUnit := some 5, amount := some 2, orders := some 3 }],
                 sell_summary := some [
                   { pricePerUnit := some 6, amount := some 4,
                     orders := some 5 }] })] }) 9 _ _
    (by
      norm_num [filterAndExtractProducts, filterLoop, getKey, except_ok_bind,
        except_error_bind])
    (by rfl)

/-- C7: each of the three read-service queries degrades to an empty result
set — never an unhandled fault — both when the store is unreachable and when
it holds no matching rows; a malformed hours parameter is likewise caught and
degrades to the empty-candles error payload. -/
theorem read_service_degrades (pid : String) (hoursRaw hoursRaw2 : Option String)
    (hours : Int) (emsg : String) (now : Nat) (d d2 d3 : DB) (db2 : Option DB)
    (hp : parseHours hoursRaw = Except.ok hours)
    (hpe : parseHours hoursRaw2 = Except.error emsg)
    (hc : d.candles = [])
    (hq : candleQuery d2 pid ((now : Int) - 3600 * hours) = [])
    (hl : latestTime d3 pid = none) :
    getProducts none = [] ∧
    getProducts (some d) = [] ∧
    getCandles (some pid) hoursRaw now none =
      CandlesResp.payload (some "connection failed") [] ∧
    getCandles (some pid) hoursRaw now (some d2) =
      CandlesResp.payload (some "No data available for this product") [] ∧
    getCandles (some pid) hoursRaw2 now db2 =
      CandlesResp.payload (some emsg) [] ∧
    getOrderbook (some pid) none = OrderbookResp.payload (some "connection failed") [] [] ∧
    getOrderbook (some pid) (some d3) = OrderbookResp.payload none [] [] := by
  refine ⟨rfl, ?_, ?_, ?_, ?_, rfl, ?_⟩
  · simp only [getProducts, connectDB, hc]
    rfl
  · simp only [getCandles, hp, connectDB]
  · simp only [getCandles, hp, connectDB, hq]
  · simp only [getCandles, hpe]
  · simp only [getOrderbook, connectDB, hl]

/-- C7 witness: with an unreachable store, an empty store, a default hours
parameter, a malformed hours parameter, and the product "A", all endpoints
return their empty payloads. -/
theorem read_service_degrades_witness :
    getProducts none = [] ∧
    getProducts (some { snaps := [], candles := [] }) = [] ∧
    getCandles (some "A") none 0 none =
      CandlesResp.payload (some "connection failed") [] ∧
    getCandles (some "A") none 0 (some { snaps := [], candles := [] }) =
      CandlesResp.payload (some "No data available for this product") [] ∧
    getCandles (some "A") (some "abc") 0 none =
      CandlesResp.payload (some "invalid literal for int() with base 10: abc") [] ∧
    getOrderbook (some "A") none =
      OrderbookResp.payload (some "connection failed") [] [] ∧
    getOrderbook (some "A") (some { snaps := [], candles := [] }) =
      OrderbookResp.payload none [] [] :=
  read_service_degrades "A" none (some "abc") 1
    "invalid literal for int() with base 10: abc" 0 _ _ _ none rfl (by rfl) rfl rfl rfl

/-- C9 counterexample: with the product parameter absent and a malformed
hours parameter, `get_candles` does not answer HTTP 400 — the `ValueError`
raised by `int()` before the product check is caught and the endpoint returns
the HTTP-200 error payload with an empty candle list. -/
theorem missing_product_param_counterexample :
    getCandles none (some "abc") 0 none =
      CandlesResp.payload (some "invalid literal for int() with base 10: abc") [] ∧
    getCandles none (some "abc") 0 none ≠
      CandlesResp.badRequest 400 "Product parameter required" := by
  have h1 : getCandles none (some "abc") 0 none =
      CandlesResp.payload (some "invalid literal for int() with base 10: abc") [] := by
    rfl
  exact ⟨h1, fun h => CandlesResp.noConfusion (h1.symm.trans h)⟩

/-- C9 amended: when the product parameter is absent and the hours parameter
is absent or parses as an integer, the candles endpoint answers HTTP 400 with
an error message — not an empty result — identically for every store state,
reachable or not, so no store access takes place; the order-book endpoint,
which has no hours parameter, always answers HTTP 400 when product is absent.
A malformed hours parameter instead yields the caught-error empty payload. -/
theorem missing_product_param_is_400 (hoursRaw : Option String) (hours : Int)
    (now : Nat) (db : Option DB)
    (hp : parseHours hoursRaw = Except.ok hours) :
    getCandles none hoursRaw now db =
      CandlesResp.badRequest 400 "Product parameter required" ∧
    getOrderbook none db =
      OrderbookResp.badRequest 400 "Product parameter required" := by
  refine ⟨?_, rfl⟩
  simp only [getCandles, hp]

/-- C9 amended witness: with the hours parameter absent (default 1) and an
unreachable store, both endpoints answer HTTP 400 without touching the
store. -/
theorem missing_product_param_is_400_witness :
    getCandles none none 0 none =
      CandlesResp.badRequest 400 "Product parameter required" ∧
    getOrderbook none none =
      OrderbookResp.badRequest 400 "Product parameter required" :=
  missing_product_param_is_400 none 1 0 none rfl

end BazaarView
